import Mathlib

/-!
# simple-bank: the transfer transaction of `db/sqlc/store.go`

A shallow embedding of `execTx`, `TransferTx` and `addMoney`.

* Go `int64` values are integers; the only arithmetic the file performs itself is the unary
  minus `-arg.Amount`, embedded as `neg64` (two's complement wrap-around).
* A Go `error` is its message; `nil` is `none`.
* The database (`*sql.DB`, `*sql.Tx` and the SQL statements behind the generated `Queries`
  methods) is a collaborator outside the file: it is a parameter `SqlDB σ` acting on an
  abstract database state `σ`.  Every call made on it is recorded, with its arguments and
  what it returned, in a trace, so that statements about which calls are made, in which
  order and with which arguments are statements about that trace.
* A unit of work may return or panic (`Outcome`).
-/

namespace SimpleBank

/-! ## Values -/

/-- Go error value, identified by the message its `Error()` method returns. -/
structure GoError where
  msg : String
deriving DecidableEq, Repr

/-- Two's complement reduction of an integer to the `int64` range. -/
def wrap64 (x : Int) : Int :=
  (x + 9223372036854775808) % 18446744073709551616 - 9223372036854775808

/-- Go unary minus on `int64` (wraps: the negation of the least value is itself). -/
def neg64 (a : Int) : Int := wrap64 (-a)

/-- Go `+` on `int64`. -/
def add64 (a b : Int) : Int := wrap64 (a + b)

/-- Range of the Go type `int64`. -/
def isInt64 (x : Int) : Prop := -9223372036854775808 ≤ x ∧ x < 9223372036854775808

instance (x : Int) : Decidable (isInt64 x) := by unfold isInt64; infer_instance

/-- Modelled from the spec: the `Account` row type (declared outside `store.go`); spec §3 gives
it an identity and a current balance. -/
structure Account where
  ID : Int
  Balance : Int
deriving DecidableEq, Repr, Inhabited

/-- Modelled from the spec: the `Entry` row type (declared outside `store.go`); spec §3: owning
account, signed amount, creation timestamp. -/
structure Entry where
  AccountID : Int
  Amount : Int
  CreatedAt : Int
deriving DecidableEq, Repr, Inhabited

/-- Modelled from the spec: the `Transfer` row type (declared outside `store.go`); spec §3:
source account, destination account, amount, creation timestamp. -/
structure Transfer where
  FromAccountID : Int
  ToAccountID : Int
  Amount : Int
  CreatedAt : Int
deriving DecidableEq, Repr, Inhabited

/-- Argument of `Queries.CreateTransfer`, fields as in the literal at `store.go:74`. -/
structure CreateTransferParams where
  FromAccountID : Int
  ToAccountID : Int
  Amount : Int
deriving DecidableEq, Repr

/-- Argument of `Queries.CreateEntry`, fields as in the literals at `store.go:83` and `:87`. -/
structure CreateEntryParams where
  AccountID : Int
  Amount : Int
deriving DecidableEq, Repr

/-- Argument of `Queries.AddAccountBalance`, fields as in the literals at `store.go:110`. -/
structure AddAccountBalanceParams where
  ID : Int
  Amount : Int
deriving DecidableEq, Repr

/-- `TransferTxParams` (`store.go:54`). -/
structure TransferTxParams where
  FromAccountID : Int
  ToAccountID : Int
  Amount : Int
deriving DecidableEq, Repr

/-- `TransferTxResult` (`store.go:60`); `default` is the Go zero value. -/
structure TransferTxResult where
  Transfer : Transfer
  FromAccount : Account
  ToAccount : Account
  FromEntry : Entry
  ToEntry : Entry
deriving DecidableEq, Repr, Inhabited

/-! ## The database collaborator and the trace of calls -/

/-- Modelled from the spec: the collaborators of spec §6, which `store.go` only calls
(`database/sql` and the generated accessors): begin / commit / rollback of a transaction and
the three row-level writes, each a transition of the database state that also yields the Go
return values. A write yields both a row and an error, as the Go methods do. -/
structure SqlDB (σ : Type) where
  BeginTx : σ → Option GoError × σ
  Commit : σ → Option GoError × σ
  Rollback : σ → Option GoError × σ
  CreateTransfer : CreateTransferParams → σ → (Transfer × Option GoError) × σ
  CreateEntry : CreateEntryParams → σ → (Entry × Option GoError) × σ
  AddAccountBalance : AddAccountBalanceParams → σ → (Account × Option GoError) × σ

/-- One call of a `Queries` method: its argument, the row and the error it returned. -/
inductive QueryCall where
  | CreateTransfer (arg : CreateTransferParams) (ret : Transfer) (err : Option GoError)
  | CreateEntry (arg : CreateEntryParams) (ret : Entry) (err : Option GoError)
  | AddAccountBalance (arg : AddAccountBalanceParams) (ret : Account) (err : Option GoError)
deriving DecidableEq, Repr

/-- The error a recorded query call returned. -/
def QueryCall.err : QueryCall → Option GoError
  | .CreateTransfer _ _ e => e
  | .CreateEntry _ _ e => e
  | .AddAccountBalance _ _ e => e

/-- One call made on the database during `execTx`, with the error it returned. -/
inductive Call where
  | BeginTx (err : Option GoError)
  | Query (c : QueryCall)
  | Rollback (err : Option GoError)
  | Commit (err : Option GoError)
deriving DecidableEq, Repr

/-- A call that ends a transaction scope. -/
def Call.isTerminal : Call → Bool
  | .Rollback _ => true
  | .Commit _ => true
  | _ => false

/-- A `Commit` call. -/
def Call.isCommit : Call → Bool
  | .Commit _ => true
  | _ => false

/-- A `Rollback` call. -/
def Call.isRollback : Call → Bool
  | .Rollback _ => true
  | _ => false

/-- What a unit of work sees: the database state inside the open transaction and the query
calls it has issued so far. It has no access to `Commit` or `Rollback`. -/
structure TxState (σ : Type) where
  db : σ
  log : List QueryCall

/-- The final state of a call of `execTx`: the database state and every call made on it. -/
structure World (σ : Type) where
  db : σ
  calls : List Call

/-- How a Go function call ends: it returns a value, or it panics. -/
inductive Outcome (α : Type) where
  | returned (v : α)
  | panicked (p : String)
deriving DecidableEq, Repr

/-- `Queries`: the accessor handed to a unit of work, bound to the open transaction. -/
structure Queries (σ : Type) where
  CreateTransfer : CreateTransferParams → TxState σ → (Transfer × Option GoError) × TxState σ
  CreateEntry : CreateEntryParams → TxState σ → (Entry × Option GoError) × TxState σ
  AddAccountBalance : AddAccountBalanceParams → TxState σ → (Account × Option GoError) × TxState σ

/-- `New(tx)` (`store.go:43`): the accessor whose methods run on the transaction, each call
recorded. -/
def New {σ : Type} (tx : SqlDB σ) : Queries σ where
  CreateTransfer arg s :=
    let r := tx.CreateTransfer arg s.db
    (r.1, { db := r.2, log := s.log ++ [QueryCall.CreateTransfer arg r.1.1 r.1.2] })
  CreateEntry arg s :=
    let r := tx.CreateEntry arg s.db
    (r.1, { db := r.2, log := s.log ++ [QueryCall.CreateEntry arg r.1.1 r.1.2] })
  AddAccountBalance arg s :=
    let r := tx.AddAccountBalance arg s.db
    (r.1, { db := r.2, log := s.log ++ [QueryCall.AddAccountBalance arg r.1.1 r.1.2] })

/-- `SQLStore` (`store.go:24`). -/
structure SQLStore (σ : Type) where
  db : SqlDB σ

/-- `NewStore` (`store.go:30`). -/
def NewStore {σ : Type} (db : SqlDB σ) : SQLStore σ := { db := db }

/-- `fmt.Errorf("tx err: %v, rb err %v", err, rbErr)` (`store.go:47`). -/
def Errorf (err rbErr : GoError) : GoError :=
  { msg := "tx err: " ++ err.msg ++ ", rb err " ++ rbErr.msg }

/-! ## The code of `store.go` -/

/-- `execTx` (`store.go:38`). The unit of work `fn` receives the accessor, the variables it
captured (`env`) and the transaction state; `env` is returned as `fn` left it. -/
def execTx {σ ε : Type} (store : SQLStore σ)
    (fn : Queries σ → ε → TxState σ → Outcome (Option GoError) × ε × TxState σ)
    (env : ε) (db : σ) : Outcome (Option GoError) × ε × World σ :=
  match store.db.BeginTx db with
  | (some err, db1) => (.returned (some err), env, { db := db1, calls := [.BeginTx (some err)] })
  | (none, db1) =>
    let q := New store.db
    match fn q env { db := db1, log := [] } with
    | (.panicked p, env2, s2) =>
      (.panicked p, env2, { db := s2.db, calls := .BeginTx none :: s2.log.map .Query })
    | (.returned (some err), env2, s2) =>
      match store.db.Rollback s2.db with
      | (some rbErr, db3) =>
        (.returned (some (Errorf err rbErr)), env2,
          { db := db3, calls := .BeginTx none :: s2.log.map .Query ++ [.Rollback (some rbErr)] })
      | (none, db3) =>
        (.returned (some err), env2,
          { db := db3, calls := .BeginTx none :: s2.log.map .Query ++ [.Rollback none] })
    | (.returned none, env2, s2) =>
      match store.db.Commit s2.db with
      | (cErr, db3) =>
        (.returned cErr, env2,
          { db := db3, calls := .BeginTx none :: s2.log.map .Query ++ [.Commit cErr] })

/-- `addMoney` (`store.go:109`). The named result `account2` is the zero value until the
second call assigns it. -/
def addMoney {σ : Type} (q : Queries σ) (accountID1 amount1 accountID2 amount2 : Int)
    (s : TxState σ) : (Account × Account × Option GoError) × TxState σ :=
  let account2 : Account := default
  match q.AddAccountBalance { ID := accountID1, Amount := amount1 } s with
  | ((account1, some err), s1) => ((account1, account2, some err), s1)
  | ((account1, none), s1) =>
    match q.AddAccountBalance { ID := accountID2, Amount := amount2 } s1 with
    | ((account2, some err), s2) => ((account1, account2, some err), s2)
    | ((account2, none), s2) => ((account1, account2, none), s2)

/-- The closure passed to `execTx` by `TransferTx` (`store.go:71`-`105`); `result` is the
captured variable, assigned by every call whether or not it failed. -/
def TransferTx.fn {σ : Type} (arg : TransferTxParams) (q : Queries σ)
    (result : TransferTxResult) (s : TxState σ) :
    Outcome (Option GoError) × TransferTxResult × TxState σ :=
  match q.CreateTransfer
      { FromAccountID := arg.FromAccountID, ToAccountID := arg.ToAccountID,
        Amount := arg.Amount } s with
  | ((transfer, some err), s1) => (.returned (some err), { result with Transfer := transfer }, s1)
  | ((transfer, none), s1) =>
    let result := { result with Transfer := transfer }
    match q.CreateEntry { AccountID := arg.FromAccountID, Amount := neg64 arg.Amount } s1 with
    | ((fromEntry, some err), s2) =>
      (.returned (some err), { result with FromEntry := fromEntry }, s2)
    | ((fromEntry, none), s2) =>
      let result := { result with FromEntry := fromEntry }
      match q.CreateEntry { AccountID := arg.ToAccountID, Amount := arg.Amount } s2 with
      | ((toEntry, some err), s3) =>
        (.returned (some err), { result with ToEntry := toEntry }, s3)
      | ((toEntry, none), s3) =>
        let result := { result with ToEntry := toEntry }
        if arg.FromAccountID < arg.ToAccountID then
          match addMoney q arg.FromAccountID (neg64 arg.Amount) arg.ToAccountID arg.Amount s3 with
          | ((fromAccount, toAccount, some err), s4) =>
            (.returned (some err),
              { result with FromAccount := fromAccount, ToAccount := toAccount }, s4)
          | ((fromAccount, toAccount, none), s4) =>
            (.returned none,
              { result with FromAccount := fromAccount, ToAccount := toAccount }, s4)
        else
          match addMoney q arg.ToAccountID arg.Amount arg.FromAccountID (neg64 arg.Amount) s3 with
          | ((toAccount, fromAccount, some err), s4) =>
            (.returned (some err),
              { result with ToAccount := toAccount, FromAccount := fromAccount }, s4)
          | ((toAccount, fromAccount, none), s4) =>
            (.returned none,
              { result with ToAccount := toAccount, FromAccount := fromAccount }, s4)

/-- `TransferTx` (`store.go:68`): runs the closure under `execTx` with `result` initially the
zero value and returns `result` and the error of `execTx`. -/
def TransferTx {σ : Type} (store : SQLStore σ) (arg : TransferTxParams) (db : σ) :
    Outcome (TransferTxResult × Option GoError) × World σ :=
  match execTx store (TransferTx.fn arg) (default : TransferTxResult) db with
  | (.returned err, result, w) => (.returned (result, err), w)
  | (.panicked p, _, w) => (.panicked p, w)

/-! ## Contracts of the database collaborator

The claims about ledger contents assume something of the database; each assumption is one
of the predicates below, stated for an arbitrary `SqlDB σ`. -/

/-- Database states a transaction opened at `s0` can be in after any number of writes made
through `Queries`. -/
inductive InTx {σ : Type} (tx : SqlDB σ) (s0 : σ) : σ → Prop where
  | opened : InTx tx s0 s0
  | createTransfer (arg : CreateTransferParams) {s : σ} :
      InTx tx s0 s → InTx tx s0 (tx.CreateTransfer arg s).2
  | createEntry (arg : CreateEntryParams) {s : σ} :
      InTx tx s0 s → InTx tx s0 (tx.CreateEntry arg s).2
  | addAccountBalance (arg : AddAccountBalanceParams) {s : σ} :
      InTx tx s0 s → InTx tx s0 (tx.AddAccountBalance arg s).2

/-- Contract of a successful rollback: whatever was written since the transaction was begun,
the ledger observed through `view` is again the one observed before `BeginTx`. -/
def RollbackRestores {σ L : Type} (tx : SqlDB σ) (view : σ → L) : Prop :=
  ∀ db db1, tx.BeginTx db = (none, db1) →
    ∀ s, InTx tx db1 s → ∀ s1, tx.Rollback s = (none, s1) → view s1 = view db

/-- Contract of the balance column, observed through `balance` (`none`: no such account):
a successful `AddAccountBalance` adds its delta to the stored balance of the account it is
given, returns the updated row and leaves every other balance alone; beginning a transaction
and inserting transfer or entry rows leave all balances alone. -/
structure AddsDelta {σ : Type} (tx : SqlDB σ) (balance : σ → Int → Option Int) : Prop where
  beginTx : ∀ s s1, tx.BeginTx s = (none, s1) → balance s1 = balance s
  createTransfer : ∀ arg s row s1, tx.CreateTransfer arg s = ((row, none), s1) →
    balance s1 = balance s
  createEntry : ∀ arg s row s1, tx.CreateEntry arg s = ((row, none), s1) →
    balance s1 = balance s
  addAccountBalance : ∀ arg s row s1, tx.AddAccountBalance arg s = ((row, none), s1) →
    ∃ b, balance s arg.ID = some b ∧ row.Balance = b + arg.Amount ∧
      balance s1 = Function.update (balance s) arg.ID (some row.Balance)

/-- Contract: a successful `AddAccountBalance` returns the account whose ID it was given. -/
def ReturnsRequestedAccount {σ : Type} (tx : SqlDB σ) : Prop :=
  ∀ arg s row s1, tx.AddAccountBalance arg s = ((row, none), s1) → row.ID = arg.ID

/-! ## A fake database

Spec §9 asks that tests can substitute a fake pool. `fakeDB` is such a double: an in-memory
ledger with a rollback snapshot and a list of injected faults. It provides the concrete
inputs at which the theorems are instantiated. -/

/-- Modelled from the spec: the ledger of the glossary (accounts, entries, transfers). -/
structure Ledger where
  accounts : List Account
  transfers : List Transfer
  entries : List Entry
deriving DecidableEq, Repr

/-- Modelled from the spec: state of the fake database. `snapshot` is the ledger saved by
`BeginTx` while a transaction is open; `faults` holds, for each upcoming call in turn,
the error to inject (`none`: let the call through); `now` stamps inserted rows. -/
structure FakeDB where
  ledger : Ledger
  snapshot : Option Ledger
  faults : List (Option GoError)
  now : Int
deriving DecidableEq, Repr

/-- Take the fault planned for the next call. -/
def FakeDB.nextFault (s : FakeDB) : Option GoError × FakeDB :=
  match s.faults with
  | [] => (none, s)
  | f :: rest => (f, { s with faults := rest })

/-- Balance of account `id` in the fake ledger. -/
def FakeDB.balance (s : FakeDB) (id : Int) : Option Int :=
  (s.ledger.accounts.find? (fun a => a.ID = id)).map (fun a => a.Balance)

/-- Add `amount` to the balance of every row with the given ID. -/
def creditRows (id amount : Int) (rows : List Account) : List Account :=
  rows.map (fun a => if a.ID = id then { a with Balance := a.Balance + amount } else a)

/-- Modelled from the spec: the fake collaborator (spec §6 signatures). A faulted call
changes nothing but the fault list. `AddAccountBalance` on an unknown account fails. -/
def fakeDB : SqlDB FakeDB where
  BeginTx s :=
    match s.nextFault with
    | (some e, s1) => (some e, s1)
    | (none, s1) => (none, { s1 with snapshot := some s1.ledger })
  Commit s :=
    match s.nextFault with
    | (some e, s1) => (some e, s1)
    | (none, s1) => (none, { s1 with snapshot := none })
  Rollback s :=
    match s.nextFault with
    | (some e, s1) => (some e, s1)
    | (none, s1) => (none, { s1 with ledger := s1.snapshot.getD s1.ledger, snapshot := none })
  CreateTransfer arg s :=
    match s.nextFault with
    | (some e, s1) => ((default, some e), s1)
    | (none, s1) =>
      let row : Transfer :=
        { FromAccountID := arg.FromAccountID, ToAccountID := arg.ToAccountID,
          Amount := arg.Amount, CreatedAt := s1.now }
      ((row, none),
        { s1 with ledger := { s1.ledger with transfers := s1.ledger.transfers ++ [row] } })
  CreateEntry arg s :=
    match s.nextFault with
    | (some e, s1) => ((default, some e), s1)
    | (none, s1) =>
      let row : Entry := { AccountID := arg.AccountID, Amount := arg.Amount, CreatedAt := s1.now }
      ((row, none), { s1 with ledger := { s1.ledger with entries := s1.ledger.entries ++ [row] } })
  AddAccountBalance arg s :=
    match s.nextFault with
    | (some e, s1) => ((default, some e), s1)
    | (none, s1) =>
      match s1.ledger.accounts.find? (fun a => a.ID = arg.ID) with
      | none => ((default, some { msg := "sql: no rows in result set" }), s1)
      | some a =>
        (({ a with Balance := a.Balance + arg.Amount }, none),
          { s1 with
            ledger := { s1.ledger with accounts := creditRows arg.ID arg.Amount s1.ledger.accounts } })

/-- The store over the fake database. -/
def fakeStore : SQLStore FakeDB := NewStore fakeDB

/-- Fake ledger of the spec scenario: account 1 holds 100, account 2 holds 50; the listed
faults are injected into the upcoming calls. -/
def scenarioDB (faults : List (Option GoError)) : FakeDB :=
  { ledger := { accounts := [{ ID := 1, Balance := 100 }, { ID := 2, Balance := 50 }],
                transfers := [], entries := [] },
    snapshot := none, faults := faults, now := 1700000000 }

/-- An injected error. -/
def boom : GoError := { msg := "injected" }

/-- An injected rollback error. -/
def rbBoom : GoError := { msg := "connection lost" }

/-- A unit of work that panics right away. -/
def panickingWork {σ : Type} (_q : Queries σ) (env : Unit) (s : TxState σ) :
    Outcome (Option GoError) × Unit × TxState σ :=
  (.panicked "boom", env, s)

/-- A unit of work that makes one insert and then fails with `boom`. -/
def failingWork (q : Queries FakeDB) (env : Unit) (s : TxState FakeDB) :
    Outcome (Option GoError) × Unit × TxState FakeDB :=
  (.returned (some boom), env, (q.CreateEntry { AccountID := 1, Amount := 5 } s).2)

/-- A unit of work that makes one insert and succeeds. -/
def succeedingWork (q : Queries FakeDB) (env : Unit) (s : TxState FakeDB) :
    Outcome (Option GoError) × Unit × TxState FakeDB :=
  (.returned none, env, (q.CreateEntry { AccountID := 1, Amount := 5 } s).2)

/-! ## Reading the trace -/

/-- The error a recorded call returned. -/
def Call.err : Call → Option GoError
  | .BeginTx e => e
  | .Query c => c.err
  | .Rollback e => e
  | .Commit e => e

/-- A call of a `Queries` method (one of the writes). -/
def Call.isWrite : Call → Bool
  | .Query _ => true
  | _ => false

/-- The call at position `i` of a trace (`BeginTx` is at position 0, so the five writes of
a transfer are at positions 1 to 5) is a write that returned a nil error. -/
def writeOk (calls : List Call) (i : Nat) : Bool :=
  match calls[i]? with
  | some (.Query c) => c.err.isNone
  | _ => false

/-- A `CreateTransfer` call that returned a nil error together with the zero row. -/
def Call.zeroInsert : Call → Bool
  | .Query (.CreateTransfer _ t none) => t == default
  | _ => false

/-- Arguments of the `CreateEntry` calls of a trace, in the order made. -/
def entryArgs : List Call → List CreateEntryParams
  | [] => []
  | .Query (.CreateEntry p _ _) :: rest => p :: entryArgs rest
  | _ :: rest => entryArgs rest

/-- Arguments of the `AddAccountBalance` calls of a trace, in the order made. -/
def updateArgs : List Call → List AddAccountBalanceParams
  | [] => []
  | .Query (.AddAccountBalance p _ _) :: rest => p :: updateArgs rest
  | _ :: rest => updateArgs rest

/-- Account IDs of the `AddAccountBalance` calls of a trace, in the order made. -/
def updateOrder (calls : List Call) : List Int :=
  (updateArgs calls).map (fun p => p.ID)

/-! ## The runs of `TransferTx`

`TransferRun` lists the seven ways a call of `TransferTx` can go (begin fails; one of the
five writes fails and the transaction is rolled back; all writes succeed and the transaction
is committed) with, in each, what the database returned at every step. `TransferTx_run`
below proves that every call is one of them. -/

/-- Argument of the `CreateTransfer` call. -/
def transferArg (arg : TransferTxParams) : CreateTransferParams :=
  { FromAccountID := arg.FromAccountID, ToAccountID := arg.ToAccountID, Amount := arg.Amount }

/-- Argument of the source `CreateEntry` call. -/
def fromEntryArg (arg : TransferTxParams) : CreateEntryParams :=
  { AccountID := arg.FromAccountID, Amount := neg64 arg.Amount }

/-- Argument of the destination `CreateEntry` call. -/
def toEntryArg (arg : TransferTxParams) : CreateEntryParams :=
  { AccountID := arg.ToAccountID, Amount := arg.Amount }

/-- Argument of the first `AddAccountBalance` call, by the branch taken at `store.go:93`. -/
def firstUpdate (arg : TransferTxParams) : AddAccountBalanceParams :=
  if arg.FromAccountID < arg.ToAccountID then
    { ID := arg.FromAccountID, Amount := neg64 arg.Amount }
  else { ID := arg.ToAccountID, Amount := arg.Amount }

/-- Argument of the second `AddAccountBalance` call, by the branch taken at `store.go:93`. -/
def secondUpdate (arg : TransferTxParams) : AddAccountBalanceParams :=
  if arg.FromAccountID < arg.ToAccountID then
    { ID := arg.ToAccountID, Amount := arg.Amount }
  else { ID := arg.FromAccountID, Amount := neg64 arg.Amount }

/-- Assignment of the two values returned by `addMoney`, by the branch taken at
`store.go:93`. -/
def withAccounts (arg : TransferTxParams) (r : TransferTxResult) (account1 account2 : Account) :
    TransferTxResult :=
  if arg.FromAccountID < arg.ToAccountID then
    { r with FromAccount := account1, ToAccount := account2 }
  else { r with ToAccount := account1, FromAccount := account2 }

/-- Error returned by `execTx` when the unit of work failed with `e` and `Rollback`
returned `rb`. -/
def abortErr (e : GoError) (rb : Option GoError) : GoError :=
  match rb with
  | some r => Errorf e r
  | none => e

/-- The ways a call of `TransferTx` on database state `db` can go. -/
inductive TransferRun {σ : Type} (store : SQLStore σ) (arg : TransferTxParams) (db : σ) :
    Outcome (TransferTxResult × Option GoError) × World σ → Prop where
  | beginFailed {e : GoError} {d1 : σ}
      (hb : store.db.BeginTx db = (some e, d1)) :
      TransferRun store arg db
        (.returned (default, some e), { db := d1, calls := [.BeginTx (some e)] })
  | transferFailed {d1 d2 d7 : σ} {t : Transfer} {e : GoError} {rb : Option GoError}
      (hb : store.db.BeginTx db = (none, d1))
      (h1 : store.db.CreateTransfer (transferArg arg) d1 = ((t, some e), d2))
      (hr : store.db.Rollback d2 = (rb, d7)) :
      TransferRun store arg db
        (.returned ({ (default : TransferTxResult) with Transfer := t }, some (abortErr e rb)),
          { db := d7,
            calls := [.BeginTx none, .Query (.CreateTransfer (transferArg arg) t (some e)),
              .Rollback rb] })
  | fromEntryFailed {d1 d2 d3 d7 : σ} {t : Transfer} {e1 : Entry} {e : GoError}
      {rb : Option GoError}
      (hb : store.db.BeginTx db = (none, d1))
      (h1 : store.db.CreateTransfer (transferArg arg) d1 = ((t, none), d2))
      (h2 : store.db.CreateEntry (fromEntryArg arg) d2 = ((e1, some e), d3))
      (hr : store.db.Rollback d3 = (rb, d7)) :
      TransferRun store arg db
        (.returned ({ (default : TransferTxResult) with Transfer := t, FromEntry := e1 },
            some (abortErr e rb)),
          { db := d7,
            calls := [.BeginTx none, .Query (.CreateTransfer (transferArg arg) t none),
              .Query (.CreateEntry (fromEntryArg arg) e1 (some e)), .Rollback rb] })
  | toEntryFailed {d1 d2 d3 d4 d7 : σ} {t : Transfer} {e1 e2 : Entry} {e : GoError}
      {rb : Option GoError}
      (hb : store.db.BeginTx db = (none, d1))
      (h1 : store.db.CreateTransfer (transferArg arg) d1 = ((t, none), d2))
      (h2 : store.db.CreateEntry (fromEntryArg arg) d2 = ((e1, none), d3))
      (h3 : store.db.CreateEntry (toEntryArg arg) d3 = ((e2, some e), d4))
      (hr : store.db.Rollback d4 = (rb, d7)) :
      TransferRun store arg db
        (.returned
            ({ (default : TransferTxResult) with Transfer := t, FromEntry := e1, ToEntry := e2 },
            some (abortErr e rb)),
          { db := d7,
            calls := [.BeginTx none, .Query (.CreateTransfer (transferArg arg) t none),
              .Query (.CreateEntry (fromEntryArg arg) e1 none),
              .Query (.CreateEntry (toEntryArg arg) e2 (some e)), .Rollback rb] })
  | firstUpdateFailed {d1 d2 d3 d4 d5 d7 : σ} {t : Transfer} {e1 e2 : Entry} {a1 : Account}
      {e : GoError} {rb : Option GoError}
      (hb : store.db.BeginTx db = (none, d1))
      (h1 : store.db.CreateTransfer (transferArg arg) d1 = ((t, none), d2))
      (h2 : store.db.CreateEntry (fromEntryArg arg) d2 = ((e1, none), d3))
      (h3 : store.db.CreateEntry (toEntryArg arg) d3 = ((e2, none), d4))
      (h4 : store.db.AddAccountBalance (firstUpdate arg) d4 = ((a1, some e), d5))
      (hr : store.db.Rollback d5 = (rb, d7)) :
      TransferRun store arg db
        (.returned
            (withAccounts arg
              { (default : TransferTxResult) with Transfer := t, FromEntry := e1, ToEntry := e2 }
              a1 default,
            some (abortErr e rb)),
          { db := d7,
            calls := [.BeginTx none, .Query (.CreateTransfer (transferArg arg) t none),
              .Query (.CreateEntry (fromEntryArg arg) e1 none),
              .Query (.CreateEntry (toEntryArg arg) e2 none),
              .Query (.AddAccountBalance (firstUpdate arg) a1 (some e)), .Rollback rb] })
  | secondUpdateFailed {d1 d2 d3 d4 d5 d6 d7 : σ} {t : Transfer} {e1 e2 : Entry}
      {a1 a2 : Account} {e : GoError} {rb : Option GoError}
      (hb : store.db.BeginTx db = (none, d1))
      (h1 : store.db.CreateTransfer (transferArg arg) d1 = ((t, none), d2))
      (h2 : store.db.CreateEntry (fromEntryArg arg) d2 = ((e1, none), d3))
      (h3 : store.db.CreateEntry (toEntryArg arg) d3 = ((e2, none), d4))
      (h4 : store.db.AddAccountBalance (firstUpdate arg) d4 = ((a1, none), d5))
      (h5 : store.db.AddAccountBalance (secondUpdate arg) d5 = ((a2, some e), d6))
      (hr : store.db.Rollback d6 = (rb, d7)) :
      TransferRun store arg db
        (.returned
            (withAccounts arg
              { (default : TransferTxResult) with Transfer := t, FromEntry := e1, ToEntry := e2 }
              a1 a2,
            some (abortErr e rb)),
          { db := d7,
            calls := [.BeginTx none, .Query (.CreateTransfer (transferArg arg) t none),
              .Query (.CreateEntry (fromEntryArg arg) e1 none),
              .Query (.CreateEntry (toEntryArg arg) e2 none),
              .Query (.AddAccountBalance (firstUpdate arg) a1 none),
              .Query (.AddAccountBalance (secondUpdate arg) a2 (some e)), .Rollback rb] })
  | committed {d1 d2 d3 d4 d5 d6 d7 : σ} {t : Transfer} {e1 e2 : Entry} {a1 a2 : Account}
      {c : Option GoError}
      (hb : store.db.BeginTx db = (none, d1))
      (h1 : store.db.CreateTransfer (transferArg arg) d1 = ((t, none), d2))
      (h2 : store.db.CreateEntry (fromEntryArg arg) d2 = ((e1, none), d3))
      (h3 : store.db.CreateEntry (toEntryArg arg) d3 = ((e2, none), d4))
      (h4 : store.db.AddAccountBalance (firstUpdate arg) d4 = ((a1, none), d5))
      (h5 : store.db.AddAccountBalance (secondUpdate arg) d5 = ((a2, none), d6))
      (hc : store.db.Commit d6 = (c, d7)) :
      TransferRun store arg db
        (.returned
            (withAccounts arg
              { (default : TransferTxResult) with Transfer := t, FromEntry := e1, ToEntry := e2 }
              a1 a2,
            c),
          { db := d7,
            calls := [.BeginTx none, .Query (.CreateTransfer (transferArg arg) t none),
              .Query (.CreateEntry (fromEntryArg arg) e1 none),
              .Query (.CreateEntry (toEntryArg arg) e2 none),
              .Query (.AddAccountBalance (firstUpdate arg) a1 none),
              .Query (.AddAccountBalance (secondUpdate arg) a2 none), .Commit c] })

/-! ## Every call of `TransferTx` is one of the seven runs -/

/-- The model of `TransferTx` follows one of the seven runs of `TransferRun`; in
particular it always returns. -/
theorem TransferTx_run {σ : Type} (store : SQLStore σ) (arg : TransferTxParams) (db : σ) :
    TransferRun store arg db (TransferTx store arg db) := by
  rcases hb : store.db.BeginTx db with ⟨_ | e, d1⟩
  swap
  · have : TransferRun store arg db _ := TransferRun.beginFailed hb
    simpa [TransferTx, execTx, hb] using this
  rcases h1 : store.db.CreateTransfer (transferArg arg) d1 with ⟨⟨t, _ | e⟩, d2⟩
  swap
  · rcases hr : store.db.Rollback d2 with ⟨rb, d7⟩
    have := TransferRun.transferFailed hb h1 hr
    simp only [transferArg] at h1
    cases rb <;>
      simpa [TransferTx, execTx, TransferTx.fn, New, hb, h1, hr, abortErr] using this
  rcases h2 : store.db.CreateEntry (fromEntryArg arg) d2 with ⟨⟨e1, _ | e⟩, d3⟩
  swap
  · rcases hr : store.db.Rollback d3 with ⟨rb, d7⟩
    have := TransferRun.fromEntryFailed hb h1 h2 hr
    simp only [transferArg, fromEntryArg] at h1 h2
    cases rb <;>
      simpa [TransferTx, execTx, TransferTx.fn, New, hb, h1, h2, hr, abortErr] using this
  rcases h3 : store.db.CreateEntry (toEntryArg arg) d3 with ⟨⟨e2, _ | e⟩, d4⟩
  swap
  · rcases hr : store.db.Rollback d4 with ⟨rb, d7⟩
    have := TransferRun.toEntryFailed hb h1 h2 h3 hr
    simp only [transferArg, fromEntryArg, toEntryArg] at h1 h2 h3
    cases rb <;>
      simpa [TransferTx, execTx, TransferTx.fn, New, hb, h1, h2, h3, hr, abortErr] using this
  rcases h4 : store.db.AddAccountBalance (firstUpdate arg) d4 with ⟨⟨a1, _ | e⟩, d5⟩
  swap
  · rcases hr : store.db.Rollback d5 with ⟨rb, d7⟩
    have := TransferRun.firstUpdateFailed hb h1 h2 h3 h4 hr
    simp only [transferArg, fromEntryArg, toEntryArg] at h1 h2 h3
    by_cases hlt : arg.FromAccountID < arg.ToAccountID <;>
    simp only [firstUpdate, hlt, if_true, if_false] at h4 <;>
    cases rb <;>
      simpa [TransferTx, execTx, TransferTx.fn, addMoney, New, hb, h1, h2, h3, h4, hr, abortErr,
        hlt, withAccounts, firstUpdate] using this
  rcases h5 : store.db.AddAccountBalance (secondUpdate arg) d5 with ⟨⟨a2, _ | e⟩, d6⟩
  swap
  · rcases hr : store.db.Rollback d6 with ⟨rb, d7⟩
    have := TransferRun.secondUpdateFailed hb h1 h2 h3 h4 h5 hr
    simp only [transferArg, fromEntryArg, toEntryArg] at h1 h2 h3
    by_cases hlt : arg.FromAccountID < arg.ToAccountID <;>
    simp only [firstUpdate, secondUpdate, hlt, if_true, if_false] at h4 h5 <;>
    cases rb <;>
      simpa [TransferTx, execTx, TransferTx.fn, addMoney, New, hb, h1, h2, h3, h4, h5, hr,
        abortErr, hlt, withAccounts, firstUpdate, secondUpdate] using this
  rcases hc : store.db.Commit d6 with ⟨c, d7⟩
  have := TransferRun.committed hb h1 h2 h3 h4 h5 hc
  simp only [transferArg, fromEntryArg, toEntryArg] at h1 h2 h3
  by_cases hlt : arg.FromAccountID < arg.ToAccountID <;>
  simp only [firstUpdate, secondUpdate, hlt, if_true, if_false] at h4 h5 <;>
    simpa [TransferTx, execTx, TransferTx.fn, addMoney, New, hb, h1, h2, h3, h4, h5, hc,
      hlt, withAccounts, firstUpdate, secondUpdate] using this

/-! ## Arithmetic of `int64` negation -/

/-- Negation is exact on every `int64` except the least one. -/
theorem neg64_eq_neg (a : Int) (h : isInt64 a) (hmin : a ≠ -9223372036854775808) :
    neg64 a = -a := by
  unfold isInt64 at h
  unfold neg64 wrap64
  have h1 : (0 : Int) ≤ -a + 9223372036854775808 := by omega
  have h2 : -a + 9223372036854775808 < 18446744073709551616 := by omega
  rw [Int.emod_eq_of_lt h1 h2]
  omega

/-- A debit and its credit cancel in `int64` arithmetic. -/
theorem add64_neg64_self (a : Int) : add64 (neg64 a) a = 0 := by
  unfold add64 neg64 wrap64
  omega

/-! ## The fake database meets the contracts -/

theorem nextFault_ledger (s : FakeDB) : s.nextFault.2.ledger = s.ledger := by
  unfold FakeDB.nextFault
  split <;> rfl

theorem nextFault_snapshot (s : FakeDB) : s.nextFault.2.snapshot = s.snapshot := by
  unfold FakeDB.nextFault
  split <;> rfl

theorem fakeDB_inTx_snapshot {s0 s : FakeDB} (h : InTx fakeDB s0 s) :
    s.snapshot = s0.snapshot := by
  induction h with
  | opened => rfl
  | createTransfer arg hs ih =>
    rename_i s
    rw [← ih, ← nextFault_snapshot s]
    simp only [fakeDB]
    split <;> simp [*]
  | createEntry arg hs ih =>
    rename_i s
    rw [← ih, ← nextFault_snapshot s]
    simp only [fakeDB]
    split <;> simp [*]
  | addAccountBalance arg hs ih =>
    rename_i s
    rw [← ih, ← nextFault_snapshot s]
    simp only [fakeDB]
    split
    · simp [*]
    · split <;> simp [*]

/-- A successful rollback of the fake database restores the ledger saved at `BeginTx`. -/
theorem fakeDB_rollbackRestores : RollbackRestores fakeDB (fun s => s.ledger) := by
  intro db db1 hb s hs s1 hr
  have hsnap : db1.snapshot = some db.ledger := by
    have hl := nextFault_ledger db
    simp only [fakeDB] at hb
    split at hb
    · simp at hb
    · rename_i s1 heq
      simp only [Prod.mk.injEq, true_and] at hb
      rw [heq] at hl
      rw [← hb]
      simpa using hl
  have h2 := fakeDB_inTx_snapshot hs
  simp only [fakeDB] at hr
  split at hr
  · simp at hr
  · rename_i s2 heq
    simp only [Prod.mk.injEq, true_and] at hr
    have h3 := nextFault_snapshot s
    rw [heq] at h3
    simp only at h3
    rw [← hr]
    simp [h3, h2, hsnap]

/-! ## C1: atomicity -/

theorem InTx.afterCreateTransfer {σ : Type} {tx : SqlDB σ} {s0 s s1 : σ}
    {arg : CreateTransferParams} {r : Transfer × Option GoError}
    (hs : InTx tx s0 s) (h : tx.CreateTransfer arg s = (r, s1)) : InTx tx s0 s1 := by
  have := InTx.createTransfer arg hs
  rwa [h] at this

theorem InTx.afterCreateEntry {σ : Type} {tx : SqlDB σ} {s0 s s1 : σ}
    {arg : CreateEntryParams} {r : Entry × Option GoError}
    (hs : InTx tx s0 s) (h : tx.CreateEntry arg s = (r, s1)) : InTx tx s0 s1 := by
  have := InTx.createEntry arg hs
  rwa [h] at this

theorem InTx.afterAddAccountBalance {σ : Type} {tx : SqlDB σ} {s0 s s1 : σ}
    {arg : AddAccountBalanceParams} {r : Account × Option GoError}
    (hs : InTx tx s0 s) (h : tx.AddAccountBalance arg s = (r, s1)) : InTx tx s0 s1 := by
  have := InTx.addAccountBalance arg hs
  rwa [h] at this

/-- C1 (atomicity). Let the database honour the rollback contract for the ledger observed
through `view`. If in a call of `TransferTx` some write returned an error and no rollback
call failed, then `TransferTx` returns a non-nil error, it has called `Rollback` (with
success) and never `Commit`, and the ledger after the call equals the ledger before it. The
write that failed may be any of the five. -/
theorem TransferTx_atomic {σ L : Type} (store : SQLStore σ) (view : σ → L)
    (hlaw : RollbackRestores store.db view) (arg : TransferTxParams) (db : σ)
    (result : TransferTxResult) (err : Option GoError)
    (h : (TransferTx store arg db).1 = .returned (result, err))
    (hfail : ∃ c ∈ (TransferTx store arg db).2.calls, c.isWrite = true ∧ c.err ≠ none)
    (hrb : ∀ c ∈ (TransferTx store arg db).2.calls, c.isRollback = true → c.err = none) :
    err ≠ none ∧ Call.Rollback none ∈ (TransferTx store arg db).2.calls ∧
      (∀ c, Call.Commit c ∉ (TransferTx store arg db).2.calls) ∧
      view (TransferTx store arg db).2.db = view db := by
  have hrun := TransferTx_run store arg db
  revert h hfail hrb
  generalize TransferTx store arg db = x at hrun ⊢
  cases hrun with
  | beginFailed hb => intro _ hfail _; simp [Call.isWrite] at hfail
  | @transferFailed d1 d2 d7 t e rb hb h1 hr =>
    intro h _ hrb
    rcases rb with _ | r
    · simp only [Outcome.returned.injEq, Prod.mk.injEq] at h
      refine ⟨by simp [← h.2, abortErr], by simp, by simp, ?_⟩
      exact hlaw db d1 hb _ (InTx.opened.afterCreateTransfer h1) _ hr
    · simpa [Call.isRollback, Call.err] using hrb (.Rollback (some r)) (by simp)
  | @fromEntryFailed d1 d2 d3 d7 t e1 e rb hb h1 h2 hr =>
    intro h _ hrb
    rcases rb with _ | r
    · simp only [Outcome.returned.injEq, Prod.mk.injEq] at h
      refine ⟨by simp [← h.2, abortErr], by simp, by simp, ?_⟩
      exact hlaw db d1 hb _
        ((InTx.opened.afterCreateTransfer h1).afterCreateEntry h2) _ hr
    · simpa [Call.isRollback, Call.err] using hrb (.Rollback (some r)) (by simp)
  | @toEntryFailed d1 d2 d3 d4 d7 t e1 e2 e rb hb h1 h2 h3 hr =>
    intro h _ hrb
    rcases rb with _ | r
    · simp only [Outcome.returned.injEq, Prod.mk.injEq] at h
      refine ⟨by simp [← h.2, abortErr], by simp, by simp, ?_⟩
      exact hlaw db d1 hb _
        (((InTx.opened.afterCreateTransfer h1).afterCreateEntry h2).afterCreateEntry h3) _ hr
    · simpa [Call.isRollback, Call.err] using hrb (.Rollback (some r)) (by simp)
  | @firstUpdateFailed d1 d2 d3 d4 d5 d7 t e1 e2 a1 e rb hb h1 h2 h3 h4 hr =>
    intro h _ hrb
    rcases rb with _ | r
    · simp only [Outcome.returned.injEq, Prod.mk.injEq] at h
      refine ⟨by simp [← h.2, abortErr], by simp, by simp, ?_⟩
      exact hlaw db d1 hb _
        ((((InTx.opened.afterCreateTransfer h1).afterCreateEntry h2).afterCreateEntry
          h3).afterAddAccountBalance h4) _ hr
    · simpa [Call.isRollback, Call.err] using hrb (.Rollback (some r)) (by simp)
  | @secondUpdateFailed d1 d2 d3 d4 d5 d6 d7 t e1 e2 a1 a2 e rb hb h1 h2 h3 h4 h5 hr =>
    intro h _ hrb
    rcases rb with _ | r
    · simp only [Outcome.returned.injEq, Prod.mk.injEq] at h
      refine ⟨by simp [← h.2, abortErr], by simp, by simp, ?_⟩
      exact hlaw db d1 hb _
        (((((InTx.opened.afterCreateTransfer h1).afterCreateEntry h2).afterCreateEntry
          h3).afterAddAccountBalance h4).afterAddAccountBalance h5) _ hr
    · simpa [Call.isRollback, Call.err] using hrb (.Rollback (some r)) (by simp)
  | committed hb h1 h2 h3 h4 h5 hc =>
    intro _ hfail _
    simp [Call.isWrite, Call.err, QueryCall.err] at hfail

/-- Witness for C1 on the fake database: the transfer of 30 from account 1 to account 2
leaves the ledger as it was before the call, whichever of its five writes is made to fail
(`CreateTransfer`, the source entry, the destination entry, the first balance update, the
second balance update). -/
theorem TransferTx_atomic_witness :
    ((TransferTx fakeStore ⟨1, 2, 30⟩ (scenarioDB [none, some boom])).2.db.ledger
        = (scenarioDB [none, some boom]).ledger) ∧
    ((TransferTx fakeStore ⟨1, 2, 30⟩ (scenarioDB [none, none, some boom])).2.db.ledger
        = (scenarioDB [none, none, some boom]).ledger) ∧
    ((TransferTx fakeStore ⟨1, 2, 30⟩ (scenarioDB [none, none, none, some boom])).2.db.ledger
        = (scenarioDB [none, none, none, some boom]).ledger) ∧
    ((TransferTx fakeStore ⟨1, 2, 30⟩
          (scenarioDB [none, none, none, none, some boom])).2.db.ledger
        = (scenarioDB [none, none, none, none, some boom]).ledger) ∧
    ((TransferTx fakeStore ⟨1, 2, 30⟩
          (scenarioDB [none, none, none, none, none, some boom])).2.db.ledger
        = (scenarioDB [none, none, none, none, none, some boom]).ledger) :=
  ⟨(TransferTx_atomic fakeStore (fun s => s.ledger) fakeDB_rollbackRestores ⟨1, 2, 30⟩
      (scenarioDB [none, some boom]) default
      (some boom) (by decide) (by decide) (by decide)).2.2.2,
    (TransferTx_atomic fakeStore (fun s => s.ledger) fakeDB_rollbackRestores ⟨1, 2, 30⟩
      (scenarioDB [none, none, some boom])
      ⟨⟨1, 2, 30, 1700000000⟩, ⟨0, 0⟩, ⟨0, 0⟩, ⟨0, 0, 0⟩, ⟨0, 0, 0⟩⟩
      (some boom) (by decide) (by decide) (by decide)).2.2.2,
    (TransferTx_atomic fakeStore (fun s => s.ledger) fakeDB_rollbackRestores ⟨1, 2, 30⟩
      (scenarioDB [none, none, none, some boom])
      ⟨⟨1, 2, 30, 1700000000⟩, ⟨0, 0⟩, ⟨0, 0⟩, ⟨1, -30, 1700000000⟩, ⟨0, 0, 0⟩⟩
      (some boom) (by decide) (by decide) (by decide)).2.2.2,
    (TransferTx_atomic fakeStore (fun s => s.ledger) fakeDB_rollbackRestores ⟨1, 2, 30⟩
      (scenarioDB [none, none, none, none, some boom])
      ⟨⟨1, 2, 30, 1700000000⟩, ⟨0, 0⟩, ⟨0, 0⟩, ⟨1, -30, 1700000000⟩, ⟨2, 30, 1700000000⟩⟩
      (some boom) (by decide) (by decide) (by decide)).2.2.2,
    (TransferTx_atomic fakeStore (fun s => s.ledger) fakeDB_rollbackRestores ⟨1, 2, 30⟩
      (scenarioDB [none, none, none, none, none, some boom])
      ⟨⟨1, 2, 30, 1700000000⟩, ⟨1, 70⟩, ⟨0, 0⟩, ⟨1, -30, 1700000000⟩, ⟨2, 30, 1700000000⟩⟩
      (some boom) (by decide) (by decide) (by decide)).2.2.2⟩

/-! ## C2: balances after a successful transfer -/

theorem find_creditRows (id amount id2 : Int) (rows : List Account) :
    (creditRows id amount rows).find? (fun a => a.ID = id2) =
      (rows.find? (fun a => a.ID = id2)).map
        (fun a => if a.ID = id then { a with Balance := a.Balance + amount } else a) := by
  induction rows with
  | nil => rfl
  | cons a rest ih =>
    unfold creditRows at ih ⊢
    have hid : (if a.ID = id then ({ a with Balance := a.Balance + amount } : Account)
        else a).ID = a.ID := by
      split <;> rfl
    rw [List.map_cons, List.find?_cons, List.find?_cons, hid]
    by_cases h2 : a.ID = id2
    · simp only [h2, decide_True, Option.map_some']
    · simp only [h2, decide_False, ih]

theorem nextFault_balance (s : FakeDB) : s.nextFault.2.balance = s.balance := by
  funext id
  unfold FakeDB.balance
  rw [nextFault_ledger]

/-- The fake database meets the balance contract. -/
theorem fakeDB_addsDelta : AddsDelta fakeDB FakeDB.balance where
  beginTx := by
    intro s s1 h
    rw [← nextFault_balance s]
    simp only [fakeDB] at h
    split at h
    · simp at h
    · rename_i heq
      simp only [Prod.mk.injEq, true_and] at h
      subst h
      funext id
      simp [heq, FakeDB.balance]
  createTransfer := by
    intro arg s row s1 h
    rw [← nextFault_balance s]
    simp only [fakeDB] at h
    split at h
    · simp at h
    · rename_i heq
      simp only [Prod.mk.injEq, and_true] at h
      rw [← h.2]
      funext id
      simp [heq, FakeDB.balance]
  createEntry := by
    intro arg s row s1 h
    rw [← nextFault_balance s]
    simp only [fakeDB] at h
    split at h
    · simp at h
    · rename_i heq
      simp only [Prod.mk.injEq, and_true] at h
      rw [← h.2]
      funext id
      simp [heq, FakeDB.balance]
  addAccountBalance := by
    intro arg s row s1 h
    rw [← nextFault_balance s]
    simp only [fakeDB] at h
    split at h
    · simp at h
    · rename_i s2 heq
      split at h
      · simp at h
      · rename_i a hfind
        simp only [Prod.mk.injEq, and_true] at h
        obtain ⟨hrow, hs1⟩ := h
        have hid : a.ID = arg.ID := by simpa using List.find?_some hfind
        refine ⟨a.Balance, ?_, ?_, ?_⟩
        · simp [heq, FakeDB.balance, hfind]
        · rw [← hrow]
        · funext id
          rw [← hs1, ← hrow]
          simp only [FakeDB.balance, heq, find_creditRows]
          by_cases hc : id = arg.ID
          · subst hc
            simp [hfind, hid]
          · rw [Function.update_noteq hc]
            simp only [FakeDB.balance]
            cases hf : List.find? (fun a => decide (a.ID = id)) s2.ledger.accounts with
            | none => rfl
            | some b =>
              have hb : b.ID = id := by simpa using List.find?_some hf
              have : b.ID ≠ arg.ID := by rw [hb]; exact hc
              simp [this]

/-- C2 as amended. Let the database honour the balance contract. If `TransferTx` succeeds
on a request whose source and destination accounts differ, then both accounts existed before
the call, `result.FromAccount.Balance` is the source balance before the call plus the
`int64` negation of the amount, which is that balance minus the amount for every `int64`
amount but the least one, and `result.ToAccount.Balance` is the destination balance before
the call plus the amount. -/
theorem TransferTx_balances {σ : Type} (store : SQLStore σ) (balance : σ → Int → Option Int)
    (hlaw : AddsDelta store.db balance) (arg : TransferTxParams) (db : σ)
    (result : TransferTxResult)
    (h : (TransferTx store arg db).1 = .returned (result, none))
    (hne : arg.FromAccountID ≠ arg.ToAccountID) :
    ∃ bFrom bTo, balance db arg.FromAccountID = some bFrom ∧
      balance db arg.ToAccountID = some bTo ∧
      result.FromAccount.Balance = bFrom + neg64 arg.Amount ∧
      (isInt64 arg.Amount → arg.Amount ≠ -9223372036854775808 →
        result.FromAccount.Balance = bFrom - arg.Amount) ∧
      result.ToAccount.Balance = bTo + arg.Amount := by
  have hrun := TransferTx_run store arg db
  revert h
  generalize TransferTx store arg db = x at hrun ⊢
  cases hrun with
  | beginFailed hb => intro h; simp at h
  | transferFailed hb h1 hr => intro h; simp at h
  | fromEntryFailed hb h1 h2 hr => intro h; simp at h
  | toEntryFailed hb h1 h2 h3 hr => intro h; simp at h
  | firstUpdateFailed hb h1 h2 h3 h4 hr => intro h; simp at h
  | secondUpdateFailed hb h1 h2 h3 h4 h5 hr => intro h; simp at h
  | @committed d1 d2 d3 d4 d5 d6 d7 t e1 e2 a1 a2 c hb h1 h2 h3 h4 h5 hc =>
    intro h
    simp only [Outcome.returned.injEq, Prod.mk.injEq] at h
    obtain ⟨hres, -⟩ := h
    have hd4 : balance d4 = balance db := by
      rw [hlaw.createEntry _ _ _ _ h3, hlaw.createEntry _ _ _ _ h2,
        hlaw.createTransfer _ _ _ _ h1, hlaw.beginTx _ _ hb]
    obtain ⟨b1, hb1, hrow1, hupd⟩ := hlaw.addAccountBalance _ _ _ _ h4
    obtain ⟨b2, hb2, hrow2, -⟩ := hlaw.addAccountBalance _ _ _ _ h5
    rw [hupd] at hb2
    rw [hd4] at hb1 hb2
    by_cases hlt : arg.FromAccountID < arg.ToAccountID
    · have hf : firstUpdate arg = ⟨arg.FromAccountID, neg64 arg.Amount⟩ := by
        simp [firstUpdate, hlt]
      have hs : secondUpdate arg = ⟨arg.ToAccountID, arg.Amount⟩ := by
        simp [secondUpdate, hlt]
      rw [hf] at hb1 hrow1 hb2
      rw [hs] at hb2 hrow2
      simp only at hb1 hb2 hrow1 hrow2
      rw [Function.update_noteq (Ne.symm hne)] at hb2
      have hF : result.FromAccount = a1 := by rw [← hres]; simp [withAccounts, hlt]
      have hT : result.ToAccount = a2 := by rw [← hres]; simp [withAccounts, hlt]
      refine ⟨b1, b2, hb1, hb2, by rw [hF, hrow1], ?_, by rw [hT, hrow2]⟩
      intro hr hmin
      rw [hF, hrow1, neg64_eq_neg _ hr hmin]
      ring
    · have hf : firstUpdate arg = ⟨arg.ToAccountID, arg.Amount⟩ := by
        simp [firstUpdate, hlt]
      have hs : secondUpdate arg = ⟨arg.FromAccountID, neg64 arg.Amount⟩ := by
        simp [secondUpdate, hlt]
      rw [hf] at hb1 hrow1 hb2
      rw [hs] at hb2 hrow2
      simp only at hb1 hb2 hrow1 hrow2
      rw [Function.update_noteq hne] at hb2
      have hF : result.FromAccount = a2 := by rw [← hres]; simp [withAccounts, hlt]
      have hT : result.ToAccount = a1 := by rw [← hres]; simp [withAccounts, hlt]
      refine ⟨b2, b1, hb2, hb1, by rw [hF, hrow2], ?_, by rw [hT, hrow1]⟩
      intro hr hmin
      rw [hF, hrow2, neg64_eq_neg _ hr hmin]
      ring

/-- Witness for C2 as amended: the spec scenario. Account 1 holds 100 and account 2 holds
50; the transfer of 30 from 1 to 2 returns the balances 70 and 80. -/
theorem TransferTx_balances_witness :
    ∃ bFrom bTo, (scenarioDB []).balance 1 = some bFrom ∧ (scenarioDB []).balance 2 = some bTo ∧
      (70 : Int) = bFrom + neg64 30 ∧
      (isInt64 30 → (30 : Int) ≠ -9223372036854775808 → (70 : Int) = bFrom - 30) ∧
      (80 : Int) = bTo + 30 :=
  TransferTx_balances fakeStore FakeDB.balance fakeDB_addsDelta ⟨1, 2, 30⟩ (scenarioDB [])
    ⟨⟨1, 2, 30, 1700000000⟩, ⟨1, 70⟩, ⟨2, 80⟩, ⟨1, -30, 1700000000⟩, ⟨2, 30, 1700000000⟩⟩
    (by decide) (by decide)

/-- Counterexample to C2 as stated: a transfer of 30 from account 1 (balance 100) to itself
succeeds on a database that honours the balance contract, yet `result.FromAccount.Balance`
is 100, not 100 - 30, because the credit is applied first and the debit is applied to the
credited row. -/
theorem TransferTx_balances_counterexample :
    AddsDelta fakeStore.db FakeDB.balance ∧
    (scenarioDB []).balance 1 = some 100 ∧
    ∃ result, (TransferTx fakeStore ⟨1, 1, 30⟩ (scenarioDB [])).1 = .returned (result, none) ∧
      result.FromAccount.Balance = 100 ∧ result.ToAccount.Balance = 130 ∧
      ¬ (result.FromAccount.Balance = 100 - 30) :=
  ⟨fakeDB_addsDelta, by decide,
    ⟨⟨1, 1, 30, 1700000000⟩, ⟨1, 100⟩, ⟨1, 130⟩, ⟨1, -30, 1700000000⟩, ⟨1, 30, 1700000000⟩⟩,
    by decide, by decide, by decide, by decide⟩

/-! ## C3: conservation of funds -/

/-- C3 (conservation of funds). In every call of `TransferTx` the `CreateEntry` calls made
are, in order, the source entry with amount `-a` and the destination entry with amount `a`
(as many of them as are reached), and the `AddAccountBalance` calls made are the source
update with delta `-a`, the amount of the source entry, and the destination update with
delta `a`, the amount of the destination entry, in the order of the branch taken. When the
first two writes succeed both entries are created, when the first four succeed
both updates are made, and every successful call makes all four. The two entry amounts sum to
zero in `int64` arithmetic. -/
theorem TransferTx_conservation {σ : Type} (store : SQLStore σ) (arg : TransferTxParams)
    (db : σ) :
    (∃ n, entryArgs (TransferTx store arg db).2.calls =
      List.take n [⟨arg.FromAccountID, neg64 arg.Amount⟩, ⟨arg.ToAccountID, arg.Amount⟩]) ∧
    (∃ n, updateArgs (TransferTx store arg db).2.calls =
      List.take n (if arg.FromAccountID < arg.ToAccountID then
        [⟨arg.FromAccountID, neg64 arg.Amount⟩, ⟨arg.ToAccountID, arg.Amount⟩]
      else [⟨arg.ToAccountID, arg.Amount⟩, ⟨arg.FromAccountID, neg64 arg.Amount⟩])) ∧
    (writeOk (TransferTx store arg db).2.calls 1 = true →
      writeOk (TransferTx store arg db).2.calls 2 = true →
      entryArgs (TransferTx store arg db).2.calls =
        [⟨arg.FromAccountID, neg64 arg.Amount⟩, ⟨arg.ToAccountID, arg.Amount⟩]) ∧
    (writeOk (TransferTx store arg db).2.calls 1 = true →
      writeOk (TransferTx store arg db).2.calls 2 = true →
      writeOk (TransferTx store arg db).2.calls 3 = true →
      writeOk (TransferTx store arg db).2.calls 4 = true →
      updateArgs (TransferTx store arg db).2.calls =
        if arg.FromAccountID < arg.ToAccountID then
          [⟨arg.FromAccountID, neg64 arg.Amount⟩, ⟨arg.ToAccountID, arg.Amount⟩]
        else [⟨arg.ToAccountID, arg.Amount⟩, ⟨arg.FromAccountID, neg64 arg.Amount⟩]) ∧
    (∀ result, (TransferTx store arg db).1 = .returned (result, none) →
      entryArgs (TransferTx store arg db).2.calls =
        [⟨arg.FromAccountID, neg64 arg.Amount⟩, ⟨arg.ToAccountID, arg.Amount⟩] ∧
      updateArgs (TransferTx store arg db).2.calls =
        if arg.FromAccountID < arg.ToAccountID then
          [⟨arg.FromAccountID, neg64 arg.Amount⟩, ⟨arg.ToAccountID, arg.Amount⟩]
        else [⟨arg.ToAccountID, arg.Amount⟩, ⟨arg.FromAccountID, neg64 arg.Amount⟩]) ∧
    add64 (neg64 arg.Amount) arg.Amount = 0 := by
  have hrun := TransferTx_run store arg db
  generalize TransferTx store arg db = x at hrun ⊢
  refine ⟨?_, ?_, ?_, ?_, ?_, add64_neg64_self _⟩
  · cases hrun
    · exact ⟨0, by simp [entryArgs]⟩
    · exact ⟨0, by simp [entryArgs]⟩
    · exact ⟨1, by simp [entryArgs, fromEntryArg]⟩
    all_goals exact ⟨2, by simp [entryArgs, fromEntryArg, toEntryArg]⟩
  · cases hrun
    · exact ⟨0, by simp [updateArgs]⟩
    · exact ⟨0, by simp [updateArgs]⟩
    · exact ⟨0, by simp [updateArgs]⟩
    · exact ⟨0, by simp [updateArgs]⟩
    · refine ⟨1, ?_⟩
      by_cases hlt : arg.FromAccountID < arg.ToAccountID <;> simp [updateArgs, firstUpdate, hlt]
    all_goals
      refine ⟨2, ?_⟩
      by_cases hlt : arg.FromAccountID < arg.ToAccountID <;>
        simp [updateArgs, firstUpdate, secondUpdate, hlt]
  · cases hrun <;> simp [writeOk, QueryCall.err, entryArgs, fromEntryArg, toEntryArg]
  · cases hrun <;>
      by_cases hlt : arg.FromAccountID < arg.ToAccountID <;>
      simp [writeOk, QueryCall.err, updateArgs, firstUpdate, secondUpdate, hlt]
  · cases hrun <;>
      by_cases hlt : arg.FromAccountID < arg.ToAccountID <;>
      simp [abortErr, entryArgs, fromEntryArg, toEntryArg, updateArgs, firstUpdate,
        secondUpdate, hlt]

/-- Witness for C3: in the spec scenario the entries created are (1, -30) and (2, 30) and
the balance updates are (1, -30) and (2, 30). -/
theorem TransferTx_conservation_witness :
    entryArgs (TransferTx fakeStore ⟨1, 2, 30⟩ (scenarioDB [])).2.calls =
        [⟨1, neg64 30⟩, ⟨2, 30⟩] ∧
      updateArgs (TransferTx fakeStore ⟨1, 2, 30⟩ (scenarioDB [])).2.calls =
        if (1 : Int) < 2 then [⟨1, neg64 30⟩, ⟨2, 30⟩] else [⟨2, 30⟩, ⟨1, neg64 30⟩] :=
  (TransferTx_conservation fakeStore ⟨1, 2, 30⟩ (scenarioDB [])).2.2.2.2.1
    ⟨⟨1, 2, 30, 1700000000⟩, ⟨1, 70⟩, ⟨2, 80⟩, ⟨1, -30, 1700000000⟩, ⟨2, 30, 1700000000⟩⟩
    (by decide)

/-! ## C4: shape of the result -/

/-- The fake database returns the row of the account it was asked to update. -/
theorem fakeDB_returnsRequestedAccount : ReturnsRequestedAccount fakeDB := by
  intro arg s row s1 h
  simp only [fakeDB] at h
  split at h
  · simp at h
  · split at h
    · simp at h
    · rename_i a hfind
      simp only [Prod.mk.injEq, and_true] at h
      have hid : a.ID = arg.ID := by simpa using List.find?_some hfind
      rw [← h.1]
      exact hid

/-- C4 (result shape). Let a successful `AddAccountBalance` return the account whose ID it
was given. If `TransferTx` succeeds then `result.FromAccount.ID` is the source ID of the
request and `result.ToAccount.ID` is its destination ID, whether the source ID is smaller
than, equal to or larger than the destination ID. -/
theorem TransferTx_result_shape {σ : Type} (store : SQLStore σ)
    (hid : ReturnsRequestedAccount store.db) (arg : TransferTxParams) (db : σ)
    (result : TransferTxResult)
    (h : (TransferTx store arg db).1 = .returned (result, none)) :
    result.FromAccount.ID = arg.FromAccountID ∧ result.ToAccount.ID = arg.ToAccountID := by
  have hrun := TransferTx_run store arg db
  revert h
  generalize TransferTx store arg db = x at hrun ⊢
  cases hrun with
  | beginFailed hb => intro h; simp at h
  | transferFailed hb h1 hr => intro h; simp at h
  | fromEntryFailed hb h1 h2 hr => intro h; simp at h
  | toEntryFailed hb h1 h2 h3 hr => intro h; simp at h
  | firstUpdateFailed hb h1 h2 h3 h4 hr => intro h; simp at h
  | secondUpdateFailed hb h1 h2 h3 h4 h5 hr => intro h; simp at h
  | @committed d1 d2 d3 d4 d5 d6 d7 t e1 e2 a1 a2 c hb h1 h2 h3 h4 h5 hc =>
    intro h
    simp only [Outcome.returned.injEq, Prod.mk.injEq] at h
    obtain ⟨hres, -⟩ := h
    have i1 := hid _ _ _ _ h4
    have i2 := hid _ _ _ _ h5
    rw [← hres]
    by_cases hlt : arg.FromAccountID < arg.ToAccountID <;>
      simp [withAccounts, hlt, i1, i2, firstUpdate, secondUpdate]

/-- Witness for C4: a transfer from account 2 to account 1 (the destination is updated
first) returns account 2 as `FromAccount` and account 1 as `ToAccount`; so does a transfer from
1 to 2, and a transfer from 1 to itself returns account 1 twice. -/
theorem TransferTx_result_shape_witness :
    ((2 : Int) = 2 ∧ (1 : Int) = 1) ∧ ((1 : Int) = 1 ∧ (2 : Int) = 2) ∧
      ((1 : Int) = 1 ∧ (1 : Int) = 1) :=
  ⟨TransferTx_result_shape fakeStore fakeDB_returnsRequestedAccount ⟨2, 1, 30⟩ (scenarioDB [])
      ⟨⟨2, 1, 30, 1700000000⟩, ⟨2, 20⟩, ⟨1, 130⟩, ⟨2, -30, 1700000000⟩, ⟨1, 30, 1700000000⟩⟩
      (by decide),
    TransferTx_result_shape fakeStore fakeDB_returnsRequestedAccount ⟨1, 2, 30⟩ (scenarioDB [])
      ⟨⟨1, 2, 30, 1700000000⟩, ⟨1, 70⟩, ⟨2, 80⟩, ⟨1, -30, 1700000000⟩, ⟨2, 30, 1700000000⟩⟩
      (by decide),
    TransferTx_result_shape fakeStore fakeDB_returnsRequestedAccount ⟨1, 1, 30⟩ (scenarioDB [])
      ⟨⟨1, 1, 30, 1700000000⟩, ⟨1, 100⟩, ⟨1, 130⟩, ⟨1, -30, 1700000000⟩, ⟨1, 30, 1700000000⟩⟩
      (by decide)⟩

/-! ## C5: order of the balance updates -/

theorem firstUpdate_ID (arg : TransferTxParams) :
    (firstUpdate arg).ID = min arg.FromAccountID arg.ToAccountID := by
  unfold firstUpdate
  split
  · rename_i hlt
    exact (min_eq_left hlt.le).symm
  · rename_i hlt
    exact (min_eq_right (not_lt.mp hlt)).symm

theorem secondUpdate_ID (arg : TransferTxParams) :
    (secondUpdate arg).ID = max arg.FromAccountID arg.ToAccountID := by
  unfold secondUpdate
  split
  · rename_i hlt
    exact (max_eq_right hlt.le).symm
  · rename_i hlt
    exact (max_eq_left (not_lt.mp hlt)).symm

theorem updateOrder_take {σ : Type} (store : SQLStore σ) (arg : TransferTxParams) (db : σ) :
    ∃ n, updateOrder (TransferTx store arg db).2.calls =
      List.take n
        [min arg.FromAccountID arg.ToAccountID, max arg.FromAccountID arg.ToAccountID] := by
  have hrun := TransferTx_run store arg db
  generalize TransferTx store arg db = x at hrun ⊢
  cases hrun
  · exact ⟨0, by simp [updateOrder, updateArgs]⟩
  · exact ⟨0, by simp [updateOrder, updateArgs]⟩
  · exact ⟨0, by simp [updateOrder, updateArgs]⟩
  · exact ⟨0, by simp [updateOrder, updateArgs]⟩
  · exact ⟨1, by simp [updateOrder, updateArgs, firstUpdate_ID]⟩
  · exact ⟨2, by simp [updateOrder, updateArgs, firstUpdate_ID, secondUpdate_ID]⟩
  · exact ⟨2, by simp [updateOrder, updateArgs, firstUpdate_ID, secondUpdate_ID]⟩

/-- C5 (deadlock-avoidance ordering). In every call of `TransferTx` whose first three
writes succeed, the first `AddAccountBalance` call is for the smaller of the two account IDs
of the request; if it succeeds the second is for the larger one, and if it fails there is no
second. The order does not depend on which account is the source: the reversed request, with
any amount, on any database, updates the same two IDs in the same order, as far as it
gets. -/
theorem TransferTx_update_order {σ : Type} (store : SQLStore σ) (arg : TransferTxParams)
    (db : σ)
    (h1 : writeOk (TransferTx store arg db).2.calls 1 = true)
    (h2 : writeOk (TransferTx store arg db).2.calls 2 = true)
    (h3 : writeOk (TransferTx store arg db).2.calls 3 = true) :
    (updateOrder (TransferTx store arg db).2.calls).head? =
        some (min arg.FromAccountID arg.ToAccountID) ∧
    (writeOk (TransferTx store arg db).2.calls 4 = true →
      updateOrder (TransferTx store arg db).2.calls =
        [min arg.FromAccountID arg.ToAccountID, max arg.FromAccountID arg.ToAccountID]) ∧
    (writeOk (TransferTx store arg db).2.calls 4 = false →
      updateOrder (TransferTx store arg db).2.calls =
        [min arg.FromAccountID arg.ToAccountID]) ∧
    (∀ (τ : Type) (store2 : SQLStore τ) (db2 : τ) (amount2 : Int),
      ∃ n, updateOrder
          (TransferTx store2 ⟨arg.ToAccountID, arg.FromAccountID, amount2⟩ db2).2.calls =
        List.take n
          [min arg.FromAccountID arg.ToAccountID, max arg.FromAccountID arg.ToAccountID]) := by
  have hrun := TransferTx_run store arg db
  refine ⟨?_, ?_, ?_, ?_⟩
  · revert h1 h2 h3
    generalize TransferTx store arg db = x at hrun ⊢
    cases hrun <;>
      simp [writeOk, QueryCall.err, updateOrder, updateArgs, firstUpdate_ID, secondUpdate_ID]
  · revert h1 h2 h3
    generalize TransferTx store arg db = x at hrun ⊢
    cases hrun <;>
      simp [writeOk, QueryCall.err, updateOrder, updateArgs, firstUpdate_ID, secondUpdate_ID]
  · revert h1 h2 h3
    generalize TransferTx store arg db = x at hrun ⊢
    cases hrun <;>
      simp [writeOk, QueryCall.err, updateOrder, updateArgs, firstUpdate_ID, secondUpdate_ID]
  · intro τ store2 db2 amount2
    have := updateOrder_take store2 ⟨arg.ToAccountID, arg.FromAccountID, amount2⟩ db2
    simpa only [min_comm arg.ToAccountID, max_comm arg.ToAccountID] using this

/-- Witness for C5: in the spec scenario the transfer from account 2 to account 1 updates
account 1 first and account 2 second, as the transfer from 1 to 2 does. -/
theorem TransferTx_update_order_witness :
    updateOrder (TransferTx fakeStore ⟨2, 1, 30⟩ (scenarioDB [])).2.calls =
        [min 2 1, max 2 1] ∧
      updateOrder (TransferTx fakeStore ⟨1, 2, 30⟩ (scenarioDB [])).2.calls =
        [min 1 2, max 1 2] :=
  ⟨(TransferTx_update_order fakeStore ⟨2, 1, 30⟩ (scenarioDB [])
      (by decide) (by decide) (by decide)).2.1 (by decide),
    (TransferTx_update_order fakeStore ⟨1, 2, 30⟩ (scenarioDB [])
      (by decide) (by decide) (by decide)).2.1 (by decide)⟩

/-! ## C6: exactly one terminal action -/

theorem countP_map_query (p : Call → Bool) (hp : ∀ c, p (.Query c) = false)
    (log : List QueryCall) : (log.map Call.Query).countP p = 0 := by
  induction log with
  | nil => rfl
  | cons c rest ih => simp [List.countP_cons, hp, ih]

/-- C6 (exactly one terminal action). Let the unit of work `fn` return normally, with
error value `fe`. If `BeginTx` succeeds, `execTx` returns, and the calls it made are
`BeginTx`, the queries of `fn`, and then exactly one terminal call: one `Commit` and no
`Rollback` if `fe` is nil, one `Rollback` and no `Commit` otherwise. If `BeginTx` fails with
`e`, `execTx` returns `e`, the only call made is `BeginTx`, and `fn` is not run: its captured
variables are untouched and the result is the same for every other unit of work. -/
theorem execTx_one_terminal {σ ε : Type} (store : SQLStore σ)
    (fn : Queries σ → ε → TxState σ → Outcome (Option GoError) × ε × TxState σ)
    (env : ε) (db : σ) (fe : Option GoError) (env2 : ε) (s2 : TxState σ)
    (hfn : fn (New store.db) env { db := (store.db.BeginTx db).2, log := [] }
      = (.returned fe, env2, s2)) :
    ((store.db.BeginTx db).1 = none →
      (∃ ret, (execTx store fn env db).1 = .returned ret) ∧
      (∃ last, (execTx store fn env db).2.2.calls =
        .BeginTx none :: s2.log.map .Query ++ [last] ∧ last.isTerminal = true) ∧
      (execTx store fn env db).2.2.calls.countP Call.isTerminal = 1 ∧
      (execTx store fn env db).2.2.calls.countP Call.isCommit = (if fe = none then 1 else 0) ∧
      (execTx store fn env db).2.2.calls.countP Call.isRollback
        = (if fe = none then 0 else 1)) ∧
    (∀ e, (store.db.BeginTx db).1 = some e →
      execTx store fn env db =
        (.returned (some e), env,
          { db := (store.db.BeginTx db).2, calls := [.BeginTx (some e)] }) ∧
      ∀ fn2, execTx store fn2 env db = execTx store fn env db) := by
  rcases hb : store.db.BeginTx db with ⟨_ | e, d1⟩
  · rw [hb] at hfn
    simp only at hfn
    refine ⟨fun _ => ?_, fun e he => by simp at he⟩
    have hT := countP_map_query Call.isTerminal (fun _ => rfl) s2.log
    have hC := countP_map_query Call.isCommit (fun _ => rfl) s2.log
    have hR := countP_map_query Call.isRollback (fun _ => rfl) s2.log
    rcases fe with _ | fe
    · rcases hc : store.db.Commit s2.db with ⟨ce, d3⟩
      simp [execTx, hb, hfn, hc, List.countP_cons, List.countP_append, hT, hC, hR,
        Call.isTerminal, Call.isCommit, Call.isRollback]
    · rcases hr : store.db.Rollback s2.db with ⟨_ | rbErr, d3⟩ <;>
        simp [execTx, hb, hfn, hr, List.countP_cons, List.countP_append, hT, hC, hR,
          Call.isTerminal, Call.isCommit, Call.isRollback]
  · refine ⟨fun h => by simp at h, fun e2 he => ?_⟩
    simp only [Option.some.injEq] at he
    subst he
    refine ⟨by simp [execTx, hb], fun fn2 => by simp [execTx, hb]⟩

/-- Witness for C6: on the fake database a unit of work that fails is followed by one
`Rollback` and no `Commit`. -/
theorem execTx_one_terminal_witness :
    (execTx fakeStore failingWork () (scenarioDB [])).2.2.calls.countP Call.isTerminal = 1 ∧
    (execTx fakeStore failingWork () (scenarioDB [])).2.2.calls.countP Call.isCommit
      = (if some boom = none then 1 else 0) ∧
    (execTx fakeStore failingWork () (scenarioDB [])).2.2.calls.countP Call.isRollback
      = (if some boom = none then 0 else 1) :=
  ((execTx_one_terminal fakeStore failingWork () (scenarioDB []) (some boom) ()
    ((New fakeStore.db).CreateEntry { AccountID := 1, Amount := 5 }
      { db := (fakeStore.db.BeginTx (scenarioDB [])).2, log := [] }).2
    rfl).1 (by decide)).2.2

/-! ## C7: errors are propagated unmodified -/

/-- C7 (error propagation). The error returned by `TransferTx` is fixed by what the
database answers, and so are the calls made. `BeginTx` is always the first call. If it
answers an error, that error is returned and nothing else is called. Otherwise, if one of
the five writes answers an error `e` after the writes before it succeeded, no later write is
made, `Rollback` is called on the state that write left, and the error returned is `e`
itself when the rollback succeeds (and `Errorf e r` when it fails with `r`). Otherwise all
five writes succeeded, `Commit` is called and the error returned is exactly what `Commit`
answers. Hence the error is nil if and only if begin, the five writes and the commit all
succeeded. -/
theorem TransferTx_error_propagation {σ : Type} (store : SQLStore σ) (arg : TransferTxParams)
    (db : σ) :
    (∃ result err, (TransferTx store arg db).1 = .returned (result, err)) ∧
    (TransferTx store arg db).2.calls.head? = some (.BeginTx (store.db.BeginTx db).1) ∧
    (∀ e d1, store.db.BeginTx db = (some e, d1) →
      (∃ result, (TransferTx store arg db).1 = .returned (result, some e)) ∧
      (TransferTx store arg db).2.calls = [.BeginTx (some e)]) ∧
    (∀ d1 d2 d7 t e rb, store.db.BeginTx db = (none, d1) →
      store.db.CreateTransfer (transferArg arg) d1 = ((t, some e), d2) →
      store.db.Rollback d2 = (rb, d7) →
      (∃ result, (TransferTx store arg db).1 = .returned (result, some (abortErr e rb))) ∧
      (TransferTx store arg db).2.calls =
        [.BeginTx none, .Query (.CreateTransfer (transferArg arg) t (some e)),
          .Rollback rb]) ∧
    (∀ d1 d2 d3 d7 t e1 e rb, store.db.BeginTx db = (none, d1) →
      store.db.CreateTransfer (transferArg arg) d1 = ((t, none), d2) →
      store.db.CreateEntry (fromEntryArg arg) d2 = ((e1, some e), d3) →
      store.db.Rollback d3 = (rb, d7) →
      (∃ result, (TransferTx store arg db).1 = .returned (result, some (abortErr e rb))) ∧
      (TransferTx store arg db).2.calls =
        [.BeginTx none, .Query (.CreateTransfer (transferArg arg) t none),
          .Query (.CreateEntry (fromEntryArg arg) e1 (some e)), .Rollback rb]) ∧
    (∀ d1 d2 d3 d4 d7 t e1 e2 e rb, store.db.BeginTx db = (none, d1) →
      store.db.CreateTransfer (transferArg arg) d1 = ((t, none), d2) →
      store.db.CreateEntry (fromEntryArg arg) d2 = ((e1, none), d3) →
      store.db.CreateEntry (toEntryArg arg) d3 = ((e2, some e), d4) →
      store.db.Rollback d4 = (rb, d7) →
      (∃ result, (TransferTx store arg db).1 = .returned (result, some (abortErr e rb))) ∧
      (TransferTx store arg db).2.calls =
        [.BeginTx none, .Query (.CreateTransfer (transferArg arg) t none),
          .Query (.CreateEntry (fromEntryArg arg) e1 none),
          .Query (.CreateEntry (toEntryArg arg) e2 (some e)), .Rollback rb]) ∧
    (∀ d1 d2 d3 d4 d5 d7 t e1 e2 a1 e rb, store.db.BeginTx db = (none, d1) →
      store.db.CreateTransfer (transferArg arg) d1 = ((t, none), d2) →
      store.db.CreateEntry (fromEntryArg arg) d2 = ((e1, none), d3) →
      store.db.CreateEntry (toEntryArg arg) d3 = ((e2, none), d4) →
      store.db.AddAccountBalance (firstUpdate arg) d4 = ((a1, some e), d5) →
      store.db.Rollback d5 = (rb, d7) →
      (∃ result, (TransferTx store arg db).1 = .returned (result, some (abortErr e rb))) ∧
      (TransferTx store arg db).2.calls =
        [.BeginTx none, .Query (.CreateTransfer (transferArg arg) t none),
          .Query (.CreateEntry (fromEntryArg arg) e1 none),
          .Query (.CreateEntry (toEntryArg arg) e2 none),
          .Query (.AddAccountBalance (firstUpdate arg) a1 (some e)), .Rollback rb]) ∧
    (∀ d1 d2 d3 d4 d5 d6 d7 t e1 e2 a1 a2 e rb, store.db.BeginTx db = (none, d1) →
      store.db.CreateTransfer (transferArg arg) d1 = ((t, none), d2) →
      store.db.CreateEntry (fromEntryArg arg) d2 = ((e1, none), d3) →
      store.db.CreateEntry (toEntryArg arg) d3 = ((e2, none), d4) →
      store.db.AddAccountBalance (firstUpdate arg) d4 = ((a1, none), d5) →
      store.db.AddAccountBalance (secondUpdate arg) d5 = ((a2, some e), d6) →
      store.db.Rollback d6 = (rb, d7) →
      (∃ result, (TransferTx store arg db).1 = .returned (result, some (abortErr e rb))) ∧
      (TransferTx store arg db).2.calls =
        [.BeginTx none, .Query (.CreateTransfer (transferArg arg) t none),
          .Query (.CreateEntry (fromEntryArg arg) e1 none),
          .Query (.CreateEntry (toEntryArg arg) e2 none),
          .Query (.AddAccountBalance (firstUpdate arg) a1 none),
          .Query (.AddAccountBalance (secondUpdate arg) a2 (some e)), .Rollback rb]) ∧
    (∀ d1 d2 d3 d4 d5 d6 d7 t e1 e2 a1 a2 c, store.db.BeginTx db = (none, d1) →
      store.db.CreateTransfer (transferArg arg) d1 = ((t, none), d2) →
      store.db.CreateEntry (fromEntryArg arg) d2 = ((e1, none), d3) →
      store.db.CreateEntry (toEntryArg arg) d3 = ((e2, none), d4) →
      store.db.AddAccountBalance (firstUpdate arg) d4 = ((a1, none), d5) →
      store.db.AddAccountBalance (secondUpdate arg) d5 = ((a2, none), d6) →
      store.db.Commit d6 = (c, d7) →
      (∃ result, (TransferTx store arg db).1 = .returned (result, c)) ∧
      (TransferTx store arg db).2.calls =
        [.BeginTx none, .Query (.CreateTransfer (transferArg arg) t none),
          .Query (.CreateEntry (fromEntryArg arg) e1 none),
          .Query (.CreateEntry (toEntryArg arg) e2 none),
          .Query (.AddAccountBalance (firstUpdate arg) a1 none),
          .Query (.AddAccountBalance (secondUpdate arg) a2 none), .Commit c]) ∧
    ((∃ result, (TransferTx store arg db).1 = .returned (result, none)) ↔
      ∃ d1 d2 d3 d4 d5 d6 d7 t e1 e2 a1 a2, store.db.BeginTx db = (none, d1) ∧
        store.db.CreateTransfer (transferArg arg) d1 = ((t, none), d2) ∧
        store.db.CreateEntry (fromEntryArg arg) d2 = ((e1, none), d3) ∧
        store.db.CreateEntry (toEntryArg arg) d3 = ((e2, none), d4) ∧
        store.db.AddAccountBalance (firstUpdate arg) d4 = ((a1, none), d5) ∧
        store.db.AddAccountBalance (secondUpdate arg) d5 = ((a2, none), d6) ∧
        store.db.Commit d6 = (none, d7)) ∧
    (∀ e, abortErr e none = e) := by
  have hcommit : ∀ d1 d2 d3 d4 d5 d6 d7 t e1 e2 a1 a2 c, store.db.BeginTx db = (none, d1) →
      store.db.CreateTransfer (transferArg arg) d1 = ((t, none), d2) →
      store.db.CreateEntry (fromEntryArg arg) d2 = ((e1, none), d3) →
      store.db.CreateEntry (toEntryArg arg) d3 = ((e2, none), d4) →
      store.db.AddAccountBalance (firstUpdate arg) d4 = ((a1, none), d5) →
      store.db.AddAccountBalance (secondUpdate arg) d5 = ((a2, none), d6) →
      store.db.Commit d6 = (c, d7) →
      (∃ result, (TransferTx store arg db).1 = .returned (result, c)) ∧
      (TransferTx store arg db).2.calls =
        [.BeginTx none, .Query (.CreateTransfer (transferArg arg) t none),
          .Query (.CreateEntry (fromEntryArg arg) e1 none),
          .Query (.CreateEntry (toEntryArg arg) e2 none),
          .Query (.AddAccountBalance (firstUpdate arg) a1 none),
          .Query (.AddAccountBalance (secondUpdate arg) a2 none), .Commit c] := by
    intro d1 d2 d3 d4 d5 d6 d7 t e1 e2 a1 a2 c hb h1 h2 h3 h4 h5 hc
    simp only [transferArg, fromEntryArg, toEntryArg] at h1 h2 h3
    by_cases hlt : arg.FromAccountID < arg.ToAccountID <;>
    simp only [firstUpdate, secondUpdate, hlt, if_true, if_false] at h4 h5 <;>
      simp [TransferTx, execTx, TransferTx.fn, addMoney, New, hb, h1, h2, h3, h4, h5, hc,
        hlt, firstUpdate, secondUpdate, transferArg, fromEntryArg, toEntryArg]
  refine ⟨?_, ?_, ?_, ?_, ?_, ?_, ?_, ?_, hcommit, ?_, fun _ => rfl⟩
  · have hrun := TransferTx_run store arg db
    generalize TransferTx store arg db = x at hrun ⊢
    cases hrun <;> exact ⟨_, _, rfl⟩
  · have hrun := TransferTx_run store arg db
    generalize TransferTx store arg db = x at hrun ⊢
    cases hrun <;> simp [*]
  · intro e d1 hb
    simp [TransferTx, execTx, hb]
  · intro d1 d2 d7 t e rb hb h1 hr
    simp only [transferArg] at h1
    cases rb <;>
      simp [TransferTx, execTx, TransferTx.fn, New, hb, h1, hr, abortErr, transferArg]
  · intro d1 d2 d3 d7 t e1 e rb hb h1 h2 hr
    simp only [transferArg, fromEntryArg] at h1 h2
    cases rb <;>
      simp [TransferTx, execTx, TransferTx.fn, New, hb, h1, h2, hr, abortErr, transferArg,
        fromEntryArg]
  · intro d1 d2 d3 d4 d7 t e1 e2 e rb hb h1 h2 h3 hr
    simp only [transferArg, fromEntryArg, toEntryArg] at h1 h2 h3
    cases rb <;>
      simp [TransferTx, execTx, TransferTx.fn, New, hb, h1, h2, h3, hr, abortErr, transferArg,
        fromEntryArg, toEntryArg]
  · intro d1 d2 d3 d4 d5 d7 t e1 e2 a1 e rb hb h1 h2 h3 h4 hr
    simp only [transferArg, fromEntryArg, toEntryArg] at h1 h2 h3
    by_cases hlt : arg.FromAccountID < arg.ToAccountID <;>
    simp only [firstUpdate, hlt, if_true, if_false] at h4 <;>
    cases rb <;>
      simp [TransferTx, execTx, TransferTx.fn, addMoney, New, hb, h1, h2, h3, h4, hr, abortErr,
        hlt, firstUpdate, transferArg, fromEntryArg, toEntryArg]
  · intro d1 d2 d3 d4 d5 d6 d7 t e1 e2 a1 a2 e rb hb h1 h2 h3 h4 h5 hr
    simp only [transferArg, fromEntryArg, toEntryArg] at h1 h2 h3
    by_cases hlt : arg.FromAccountID < arg.ToAccountID <;>
    simp only [firstUpdate, secondUpdate, hlt, if_true, if_false] at h4 h5 <;>
    cases rb <;>
      simp [TransferTx, execTx, TransferTx.fn, addMoney, New, hb, h1, h2, h3, h4, h5, hr,
        abortErr, hlt, firstUpdate, secondUpdate, transferArg, fromEntryArg, toEntryArg]
  · constructor
    · have hrun := TransferTx_run store arg db
      generalize TransferTx store arg db = x at hrun ⊢
      cases hrun with
      | beginFailed hb => intro h; simp at h
      | @transferFailed d1 d2 d7 t e rb hb h1 hr =>
        intro h; cases rb <;> simp [abortErr] at h
      | @fromEntryFailed d1 d2 d3 d7 t e1 e rb hb h1 h2 hr =>
        intro h; cases rb <;> simp [abortErr] at h
      | @toEntryFailed d1 d2 d3 d4 d7 t e1 e2 e rb hb h1 h2 h3 hr =>
        intro h; cases rb <;> simp [abortErr] at h
      | @firstUpdateFailed d1 d2 d3 d4 d5 d7 t e1 e2 a1 e rb hb h1 h2 h3 h4 hr =>
        intro h; cases rb <;> simp [abortErr] at h
      | @secondUpdateFailed d1 d2 d3 d4 d5 d6 d7 t e1 e2 a1 a2 e rb hb h1 h2 h3 h4 h5 hr =>
        intro h; cases rb <;> simp [abortErr] at h
      | @committed d1 d2 d3 d4 d5 d6 d7 t e1 e2 a1 a2 c hb h1 h2 h3 h4 h5 hc =>
        intro h
        obtain ⟨result, h⟩ := h
        simp only [Outcome.returned.injEq, Prod.mk.injEq] at h
        obtain ⟨-, hcn⟩ := h
        subst hcn
        exact ⟨d1, d2, d3, d4, d5, d6, d7, t, e1, e2, a1, a2, hb, h1, h2, h3, h4, h5, hc⟩
    · rintro ⟨d1, d2, d3, d4, d5, d6, d7, t, e1, e2, a1, a2, hb, h1, h2, h3, h4, h5, hc⟩
      exact (hcommit d1 d2 d3 d4 d5 d6 d7 t e1 e2 a1 a2 none hb h1 h2 h3 h4 h5 hc).1

/-- Witness for C7 on the fake database, for the transfer of 30 from account 1 to account
2. With `BeginTx` made to fail the injected error is returned and nothing else is called;
with the destination entry made to fail and the rollback succeeding the injected error is
returned after three writes and a `Rollback`; with `Commit` made to fail its error is
returned after all five writes. -/
theorem TransferTx_error_propagation_witness :
    ((∃ result, (TransferTx fakeStore ⟨1, 2, 30⟩ (scenarioDB [some boom])).1
        = .returned (result, some boom)) ∧
      (TransferTx fakeStore ⟨1, 2, 30⟩ (scenarioDB [some boom])).2.calls
        = [.BeginTx (some boom)]) ∧
    ((∃ result, (TransferTx fakeStore ⟨1, 2, 30⟩
          (scenarioDB [none, none, none, some boom])).1
        = .returned (result, some (abortErr boom none))) ∧
      (TransferTx fakeStore ⟨1, 2, 30⟩ (scenarioDB [none, none, none, some boom])).2.calls
        = [.BeginTx none,
          .Query (.CreateTransfer (transferArg ⟨1, 2, 30⟩) ⟨1, 2, 30, 1700000000⟩ none),
          .Query (.CreateEntry (fromEntryArg ⟨1, 2, 30⟩) ⟨1, -30, 1700000000⟩ none),
          .Query (.CreateEntry (toEntryArg ⟨1, 2, 30⟩) default (some boom)),
          .Rollback none]) ∧
    ((∃ result, (TransferTx fakeStore ⟨1, 2, 30⟩
          (scenarioDB [none, none, none, none, none, none, some rbBoom])).1
        = .returned (result, some rbBoom)) ∧
      (TransferTx fakeStore ⟨1, 2, 30⟩
          (scenarioDB [none, none, none, none, none, none, some rbBoom])).2.calls
        = [.BeginTx none,
          .Query (.CreateTransfer (transferArg ⟨1, 2, 30⟩) ⟨1, 2, 30, 1700000000⟩ none),
          .Query (.CreateEntry (fromEntryArg ⟨1, 2, 30⟩) ⟨1, -30, 1700000000⟩ none),
          .Query (.CreateEntry (toEntryArg ⟨1, 2, 30⟩) ⟨2, 30, 1700000000⟩ none),
          .Query (.AddAccountBalance (firstUpdate ⟨1, 2, 30⟩) ⟨1, 70⟩ none),
          .Query (.AddAccountBalance (secondUpdate ⟨1, 2, 30⟩) ⟨2, 80⟩ none),
          .Commit (some rbBoom)]) :=
  ⟨(TransferTx_error_propagation fakeStore ⟨1, 2, 30⟩ (scenarioDB [some boom])).2.2.1
      boom _ rfl,
    (TransferTx_error_propagation fakeStore ⟨1, 2, 30⟩
      (scenarioDB [none, none, none, some boom])).2.2.2.2.2.1
      _ _ _ _ _ ⟨1, 2, 30, 1700000000⟩ ⟨1, -30, 1700000000⟩ default boom none
      rfl rfl rfl rfl rfl,
    (TransferTx_error_propagation fakeStore ⟨1, 2, 30⟩
      (scenarioDB [none, none, none, none, none, none, some rbBoom])).2.2.2.2.2.2.2.2.1
      _ _ _ _ _ _ _ ⟨1, 2, 30, 1700000000⟩ ⟨1, -30, 1700000000⟩ ⟨2, 30, 1700000000⟩
      ⟨1, 70⟩ ⟨2, 80⟩ (some rbBoom) rfl rfl rfl rfl rfl rfl rfl⟩

/-! ## C8: the composite rollback error -/

/-- C8 (composite rollback error). If `BeginTx` succeeds, the unit of work fails with `e`
and `Rollback` then fails with `r`, `execTx` returns the error whose message is
`tx err: <e>, rb err <r>`, which contains both messages, and does not call `Commit`. -/
theorem execTx_composite_error {σ ε : Type} (store : SQLStore σ)
    (fn : Queries σ → ε → TxState σ → Outcome (Option GoError) × ε × TxState σ)
    (env : ε) (db d1 d3 : σ) (e r : GoError) (env2 : ε) (s2 : TxState σ)
    (hb : store.db.BeginTx db = (none, d1))
    (hfn : fn (New store.db) env { db := d1, log := [] } = (.returned (some e), env2, s2))
    (hr : store.db.Rollback s2.db = (some r, d3)) :
    (execTx store fn env db).1 =
        .returned (some { msg := "tx err: " ++ e.msg ++ ", rb err " ++ r.msg }) ∧
      Call.Rollback (some r) ∈ (execTx store fn env db).2.2.calls ∧
      (execTx store fn env db).2.2.calls.countP Call.isCommit = 0 := by
  have hC := countP_map_query Call.isCommit (fun _ => rfl) s2.log
  simp [execTx, hb, hfn, hr, Errorf, List.countP_cons, List.countP_append, hC, Call.isCommit]

/-- Witness for C8: on the fake database, a unit of work failing with `injected` and a
rollback failing with `connection lost` give the error
`tx err: injected, rb err connection lost`. -/
theorem execTx_composite_error_witness :
    (execTx fakeStore failingWork () (scenarioDB [none, none, some rbBoom])).1 =
        .returned (some { msg := "tx err: " ++ boom.msg ++ ", rb err " ++ rbBoom.msg }) ∧
      Call.Rollback (some rbBoom) ∈
        (execTx fakeStore failingWork () (scenarioDB [none, none, some rbBoom])).2.2.calls ∧
      (execTx fakeStore failingWork () (scenarioDB [none, none, some rbBoom])).2.2.calls.countP
        Call.isCommit = 0 :=
  execTx_composite_error fakeStore failingWork () (scenarioDB [none, none, some rbBoom])
    (fakeStore.db.BeginTx (scenarioDB [none, none, some rbBoom])).2
    (fakeStore.db.Rollback
      ((New fakeStore.db).CreateEntry { AccountID := 1, Amount := 5 }
        { db := (fakeStore.db.BeginTx (scenarioDB [none, none, some rbBoom])).2,
          log := [] }).2.db).2
    boom rbBoom ()
    ((New fakeStore.db).CreateEntry { AccountID := 1, Amount := 5 }
      { db := (fakeStore.db.BeginTx (scenarioDB [none, none, some rbBoom])).2, log := [] }).2
    rfl rfl rfl

/-! ## C9: a unit of work that panics -/

/-- C9 as amended. If `BeginTx` succeeds and the unit of work panics, `execTx` panics with
the same value; the calls made are `BeginTx` and the queries of the unit of work, so neither
`Rollback` nor `Commit` is called, and the database is left in the state in which the unit
of work left the open transaction. -/
theorem execTx_panic_propagates {σ ε : Type} (store : SQLStore σ)
    (fn : Queries σ → ε → TxState σ → Outcome (Option GoError) × ε × TxState σ)
    (env : ε) (db d1 : σ) (p : String) (env2 : ε) (s2 : TxState σ)
    (hb : store.db.BeginTx db = (none, d1))
    (hfn : fn (New store.db) env { db := d1, log := [] } = (.panicked p, env2, s2)) :
    (execTx store fn env db).1 = .panicked p ∧
      (execTx store fn env db).2.2.calls = .BeginTx none :: s2.log.map .Query ∧
      (execTx store fn env db).2.2.calls.countP Call.isRollback = 0 ∧
      (execTx store fn env db).2.2.calls.countP Call.isCommit = 0 ∧
      (execTx store fn env db).2.2.db = s2.db := by
  have hC := countP_map_query Call.isCommit (fun _ => rfl) s2.log
  have hR := countP_map_query Call.isRollback (fun _ => rfl) s2.log
  simp [execTx, hb, hfn, List.countP_cons, hC, hR, Call.isCommit, Call.isRollback]

/-- Witness for C9 as amended: the panicking unit of work on the fake database. -/
theorem execTx_panic_propagates_witness :
    (execTx fakeStore panickingWork () (scenarioDB [])).1 = .panicked "boom" ∧
      (execTx fakeStore panickingWork () (scenarioDB [])).2.2.calls =
        .BeginTx none :: ([] : List QueryCall).map .Query ∧
      (execTx fakeStore panickingWork () (scenarioDB [])).2.2.calls.countP Call.isRollback = 0 ∧
      (execTx fakeStore panickingWork () (scenarioDB [])).2.2.calls.countP Call.isCommit = 0 ∧
      (execTx fakeStore panickingWork () (scenarioDB [])).2.2.db =
        (fakeStore.db.BeginTx (scenarioDB [])).2 :=
  execTx_panic_propagates fakeStore panickingWork () (scenarioDB [])
    (fakeStore.db.BeginTx (scenarioDB [])).2 "boom" ()
    { db := (fakeStore.db.BeginTx (scenarioDB [])).2, log := [] } rfl rfl

/-- Counterexample to C9 as stated: on the fake database `BeginTx` succeeds, the unit of
work panics, and `execTx` makes no `Rollback` call: the only call is `BeginTx` and the
transaction is still open (its snapshot is still held) when the panic leaves `execTx`. -/
theorem execTx_panic_counterexample :
    (fakeStore.db.BeginTx (scenarioDB [])).1 = none ∧
      (panickingWork (New fakeStore.db) ()
        { db := (fakeStore.db.BeginTx (scenarioDB [])).2, log := [] }).1 = .panicked "boom" ∧
      (execTx fakeStore panickingWork () (scenarioDB [])).1 = .panicked "boom" ∧
      (execTx fakeStore panickingWork () (scenarioDB [])).2.2.calls = [.BeginTx none] ∧
      (∀ rb, Call.Rollback rb ∉ (execTx fakeStore panickingWork () (scenarioDB [])).2.2.calls) ∧
      (execTx fakeStore panickingWork () (scenarioDB [])).2.2.db.snapshot
        = some (scenarioDB []).ledger := by
  refine ⟨by decide, by decide, by decide, by decide, ?_, by decide⟩
  intro rb hmem
  have hcalls : (execTx fakeStore panickingWork () (scenarioDB [])).2.2.calls
      = [.BeginTx none] := by decide
  rw [hcalls] at hmem
  simp at hmem

/-! ## C10: the result returned along with an error -/

/-- C10 (partial result on error). Whatever error `TransferTx` returns, `result` holds the
rows returned by the calls made: the transfer row of the `CreateTransfer` call, the entry
rows of the two `CreateEntry` calls, and the account rows of the two `AddAccountBalance`
calls, the first of which is assigned to `FromAccount` when the source ID is the smaller one
and to `ToAccount` otherwise. Provided a successful `CreateTransfer` returns a row that is not
the zero value, the result is not the zero value once `CreateTransfer` has succeeded, even if
a later write or the commit fails; and the result is the zero value only if `BeginTx` failed
or `CreateTransfer` failed returning the zero row. -/
theorem TransferTx_partial_result {σ : Type} (store : SQLStore σ) (arg : TransferTxParams)
    (db : σ) (result : TransferTxResult) (err : Option GoError)
    (h : (TransferTx store arg db).1 = .returned (result, err))
    (hnz : ∀ c ∈ (TransferTx store arg db).2.calls, c.zeroInsert = false) :
    (∀ p t e, (TransferTx store arg db).2.calls[1]? = some (.Query (.CreateTransfer p t e)) →
      result.Transfer = t) ∧
    (∀ p r e, (TransferTx store arg db).2.calls[2]? = some (.Query (.CreateEntry p r e)) →
      result.FromEntry = r) ∧
    (∀ p r e, (TransferTx store arg db).2.calls[3]? = some (.Query (.CreateEntry p r e)) →
      result.ToEntry = r) ∧
    (∀ p r e,
      (TransferTx store arg db).2.calls[4]? = some (.Query (.AddAccountBalance p r e)) →
      if arg.FromAccountID < arg.ToAccountID then result.FromAccount = r
      else result.ToAccount = r) ∧
    (∀ p r e,
      (TransferTx store arg db).2.calls[5]? = some (.Query (.AddAccountBalance p r e)) →
      if arg.FromAccountID < arg.ToAccountID then result.ToAccount = r
      else result.FromAccount = r) ∧
    (writeOk (TransferTx store arg db).2.calls 1 = true → result ≠ default) ∧
    (result = default →
      (∃ e, (TransferTx store arg db).2.calls = [.BeginTx (some e)]) ∨
      (∃ p e rb, (TransferTx store arg db).2.calls =
        [.BeginTx none, .Query (.CreateTransfer p default (some e)), .Rollback rb])) := by
  have hrun := TransferTx_run store arg db
  revert h hnz
  generalize TransferTx store arg db = x at hrun ⊢
  have key : ∀ (r : TransferTxResult) (t : Transfer), t ≠ default → r.Transfer = t →
      r ≠ default := by
    intro r t ht hr hd
    apply ht
    rw [← hr, hd]
    rfl
  cases hrun with
  | beginFailed hb =>
    intro h _
    simp only [Outcome.returned.injEq, Prod.mk.injEq] at h
    simp [writeOk]
  | @transferFailed d1 d2 d7 t e rb hb h1 hr =>
    intro h _
    simp only [Outcome.returned.injEq, Prod.mk.injEq] at h
    obtain ⟨hres, -⟩ := h
    subst hres
    refine ⟨by simp, by simp, by simp, by simp, by simp, by simp [writeOk, QueryCall.err], ?_⟩
    intro hd
    have ht : t = default := by
      have := congrArg TransferTxResult.Transfer hd
      simpa using this
    exact Or.inr ⟨_, e, rb, by rw [ht]⟩
  | @fromEntryFailed d1 d2 d3 d7 t e1 e rb hb h1 h2 hr =>
    intro h hnz
    simp only [Outcome.returned.injEq, Prod.mk.injEq] at h
    obtain ⟨hres, -⟩ := h
    subst hres
    have ht : t ≠ default := by
      have := hnz (.Query (.CreateTransfer (transferArg arg) t none)) (by simp)
      simpa [Call.zeroInsert] using this
    refine ⟨by simp, by simp, by simp, by simp, by simp, fun _ => key _ t ht rfl, ?_⟩
    intro hd
    exact absurd hd (key _ t ht rfl)
  | @toEntryFailed d1 d2 d3 d4 d7 t e1 e2 e rb hb h1 h2 h3 hr =>
    intro h hnz
    simp only [Outcome.returned.injEq, Prod.mk.injEq] at h
    obtain ⟨hres, -⟩ := h
    subst hres
    have ht : t ≠ default := by
      have := hnz (.Query (.CreateTransfer (transferArg arg) t none)) (by simp)
      simpa [Call.zeroInsert] using this
    refine ⟨by simp, by simp, by simp, by simp, by simp, fun _ => key _ t ht rfl, ?_⟩
    intro hd
    exact absurd hd (key _ t ht rfl)
  | @firstUpdateFailed d1 d2 d3 d4 d5 d7 t e1 e2 a1 e rb hb h1 h2 h3 h4 hr =>
    intro h hnz
    simp only [Outcome.returned.injEq, Prod.mk.injEq] at h
    obtain ⟨hres, -⟩ := h
    subst hres
    have ht : t ≠ default := by
      have := hnz (.Query (.CreateTransfer (transferArg arg) t none)) (by simp)
      simpa [Call.zeroInsert] using this
    have hT : ∀ a b, (withAccounts arg
        { (default : TransferTxResult) with Transfer := t, FromEntry := e1, ToEntry := e2 }
        a b).Transfer = t := by
      intro a b; unfold withAccounts; split <;> rfl
    refine ⟨?_, ?_, ?_, ?_, ?_, fun _ => key _ t ht (hT _ _), ?_⟩
    · by_cases hlt : arg.FromAccountID < arg.ToAccountID <;> simp [withAccounts, hlt]
    · by_cases hlt : arg.FromAccountID < arg.ToAccountID <;> simp [withAccounts, hlt]
    · by_cases hlt : arg.FromAccountID < arg.ToAccountID <;> simp [withAccounts, hlt]
    · by_cases hlt : arg.FromAccountID < arg.ToAccountID <;> simp [withAccounts, hlt]
    · by_cases hlt : arg.FromAccountID < arg.ToAccountID <;> simp [withAccounts, hlt]
    · intro hd
      exact absurd hd (key _ t ht (hT _ _))
  | @secondUpdateFailed d1 d2 d3 d4 d5 d6 d7 t e1 e2 a1 a2 e rb hb h1 h2 h3 h4 h5 hr =>
    intro h hnz
    simp only [Outcome.returned.injEq, Prod.mk.injEq] at h
    obtain ⟨hres, -⟩ := h
    subst hres
    have ht : t ≠ default := by
      have := hnz (.Query (.CreateTransfer (transferArg arg) t none)) (by simp)
      simpa [Call.zeroInsert] using this
    have hT : ∀ a b, (withAccounts arg
        { (default : TransferTxResult) with Transfer := t, FromEntry := e1, ToEntry := e2 }
        a b).Transfer = t := by
      intro a b; unfold withAccounts; split <;> rfl
    refine ⟨?_, ?_, ?_, ?_, ?_, fun _ => key _ t ht (hT _ _), ?_⟩
    · by_cases hlt : arg.FromAccountID < arg.ToAccountID <;> simp [withAccounts, hlt]
    · by_cases hlt : arg.FromAccountID < arg.ToAccountID <;> simp [withAccounts, hlt]
    · by_cases hlt : arg.FromAccountID < arg.ToAccountID <;> simp [withAccounts, hlt]
    · by_cases hlt : arg.FromAccountID < arg.ToAccountID <;> simp [withAccounts, hlt]
    · by_cases hlt : arg.FromAccountID < arg.ToAccountID <;> simp [withAccounts, hlt]
    · intro hd
      exact absurd hd (key _ t ht (hT _ _))
  | @committed d1 d2 d3 d4 d5 d6 d7 t e1 e2 a1 a2 c hb h1 h2 h3 h4 h5 hc =>
    intro h hnz
    simp only [Outcome.returned.injEq, Prod.mk.injEq] at h
    obtain ⟨hres, -⟩ := h
    subst hres
    have ht : t ≠ default := by
      have := hnz (.Query (.CreateTransfer (transferArg arg) t none)) (by simp)
      simpa [Call.zeroInsert] using this
    have hT : ∀ a b, (withAccounts arg
        { (default : TransferTxResult) with Transfer := t, FromEntry := e1, ToEntry := e2 }
        a b).Transfer = t := by
      intro a b; unfold withAccounts; split <;> rfl
    refine ⟨?_, ?_, ?_, ?_, ?_, fun _ => key _ t ht (hT _ _), ?_⟩
    · by_cases hlt : arg.FromAccountID < arg.ToAccountID <;> simp [withAccounts, hlt]
    · by_cases hlt : arg.FromAccountID < arg.ToAccountID <;> simp [withAccounts, hlt]
    · by_cases hlt : arg.FromAccountID < arg.ToAccountID <;> simp [withAccounts, hlt]
    · by_cases hlt : arg.FromAccountID < arg.ToAccountID <;> simp [withAccounts, hlt]
    · by_cases hlt : arg.FromAccountID < arg.ToAccountID <;> simp [withAccounts, hlt]
    · intro hd
      exact absurd hd (key _ t ht (hT _ _))

/-- Witness for C10: in the spec scenario with the second balance update made to fail,
`TransferTx` returns the injected error together with a result that is not the zero value:
it holds the transfer row, both entry rows and the updated row of account 1, although all
these writes were rolled back. -/
theorem TransferTx_partial_result_witness :
    (TransferTx fakeStore ⟨1, 2, 30⟩
        (scenarioDB [none, none, none, none, none, some boom])).1 =
      .returned
        (⟨⟨1, 2, 30, 1700000000⟩, ⟨1, 70⟩, ⟨0, 0⟩, ⟨1, -30, 1700000000⟩,
          ⟨2, 30, 1700000000⟩⟩, some boom) ∧
    (⟨⟨1, 2, 30, 1700000000⟩, ⟨1, 70⟩, ⟨0, 0⟩, ⟨1, -30, 1700000000⟩,
      ⟨2, 30, 1700000000⟩⟩ : TransferTxResult) ≠ default :=
  ⟨by decide,
    (TransferTx_partial_result fakeStore ⟨1, 2, 30⟩
      (scenarioDB [none, none, none, none, none, some boom])
      ⟨⟨1, 2, 30, 1700000000⟩, ⟨1, 70⟩, ⟨0, 0⟩, ⟨1, -30, 1700000000⟩, ⟨2, 30, 1700000000⟩⟩
      (some boom) (by decide) (by decide)).2.2.2.2.2.1 (by decide)⟩

end SimpleBank
